import Mathlib

/-! # Chain-parameter registry (`chainparams.cpp`)

A shallow embedding of the per-network parameter profiles (`CMainParams`,
`CTestNetParams`, `CRegTestParams`, `CUnitTestParams`), of their static checkpoint
tables and of the selection functions `Params`, `ModifiableParams`, `SelectParams` and
`SelectParamsFromCommandLine`.

Conventions of the embedding:

* a failed `assert` aborts the process; it is the `Except.error` result of the
  embedded function;
* the four `static` profile objects and the `static` pointer `pCurrentParams` are the
  fields of `Registry`; a pointer to one of the four objects is a `ParamsObject`;
* functions that `chainparams.cpp` calls but does not define (`ParseHex`,
  `CBlock::BuildMerkleTree`, `CBlockHeader::GetHash`, `SelectBaseParams`) and the
  constant `COIN` are fields of `Externals`, a parameter of the embedding, and the
  value of `NetworkIdFromCommandLine()` is an argument of the function that uses it;
* `uint256S("0x…")` is the natural number with that hexadecimal representation and
  `arith_uint256` arithmetic is arithmetic on naturals below `2 ^ 256`.
-/

namespace ChainParams

/-! ## Data model -/

/-- A fatal condition: the text of the `assert` that failed. -/
inductive Failure where
  | assertion (expr : String)
  deriving DecidableEq, Repr

/-- The enumerators of `CBaseChainParams::Network` that `chainparams.cpp` names. -/
inductive Network where
  | MAIN
  | TESTNET
  | REGTEST
  | UNITTEST
  | MAX_NETWORK_TYPES
  deriving DecidableEq, Repr

/-- The indices of `base58Prefixes` that the constructors assign. -/
inductive Base58Type where
  | PUBKEY_ADDRESS
  | SCRIPT_ADDRESS
  | SECRET_KEY
  | EXT_PUBLIC_KEY
  | EXT_SECRET_KEY
  deriving DecidableEq, Repr

/-- The operands that the genesis scripts push with `CScript::operator<<`. -/
inductive ScriptElem where
  | int64 (n : Int)
  | scriptNum (n : Int)
  | bytes (v : List Nat)
  | OP_CHECKSIG
  deriving DecidableEq, Repr

/-- A script as the sequence of operands streamed into `CScript()`. -/
abbrev CScript := List ScriptElem

/-- The field of `CTxIn` that the genesis construction assigns. -/
structure CTxIn where
  scriptSig : CScript := []
  deriving DecidableEq, Repr

/-- The fields of `CTxOut` that the genesis construction assigns. -/
structure CTxOut where
  nValue : Int := -1
  scriptPubKey : CScript := []
  deriving DecidableEq, Repr

/-- The input and output vectors of `CMutableTransaction`. -/
structure CMutableTransaction where
  vin : List CTxIn := []
  vout : List CTxOut := []
  deriving DecidableEq, Repr

/-- The six header fields of a block. -/
structure CBlockHeader where
  nVersion : Int := 0
  hashPrevBlock : Nat := 0
  hashMerkleRoot : Nat := 0
  nTime : Nat := 0
  nBits : Nat := 0
  nNonce : Nat := 0
  deriving DecidableEq, Repr

/-- A block: its header and its transactions (`class CBlock : public CBlockHeader`). -/
structure CBlock extends CBlockHeader where
  vtx : List CMutableTransaction := []
  deriving DecidableEq, Repr

/-- A DNS seed entry (`vSeeds` element); no constructor adds one. -/
structure CDNSSeedData where
  name : String
  host : String
  deriving DecidableEq, Repr

/-- A fixed seed address (`vFixedSeeds` element); no constructor adds one. -/
structure CAddress where
  ip : List Nat
  port : Nat
  nTime : Int
  deriving DecidableEq, Repr

/-- What `chainparams.cpp` uses and does not define. -/
structure Externals where
  /-- The constant `COIN` of `amount.h`. -/
  COIN : Int
  /-- The function `ParseHex` of `utilstrencodings.h`. -/
  ParseHex : String → List Nat
  /-- The method `CBlock::BuildMerkleTree`, a function of the block's transactions. -/
  BuildMerkleTree : List CMutableTransaction → Nat
  /-- The method `CBlockHeader::GetHash`, a function of the header. -/
  GetHash : CBlockHeader → Nat
  /-- The function `SelectBaseParams` of `chainparamsbase.cpp`: whether it returns. -/
  SelectBaseParams : Network → Except Failure Unit

/-- The member variables of `CChainParams` that the constructors assign. The defaults
are the state the base-class constructor leaves: empty vectors and a null block; the
scalar members have no initialiser there and `CMainParams()` assigns each of them. -/
structure CChainParams where
  strNetworkID : String := ""
  pchMessageStart : List Nat := [0, 0, 0, 0]
  vAlertPubKey : List Nat := []
  nDefaultPort : Int := 0
  bnProofOfWorkLimit : Nat := 0
  nSubsidyHalvingInterval : Int := 0
  nEnforceBlockUpgradeMajority : Int := 0
  nRejectBlockOutdatedMajority : Int := 0
  nToCheckBlockUpgradeMajority : Int := 0
  nMinerThreads : Int := 0
  nTargetTimespan : Int := 0
  nTargetSpacing : Int := 0
  nGenesisSubsidy : Int := 0
  genesis : CBlock := {}
  hashGenesisBlock : Nat := 0
  vSeeds : List CDNSSeedData := []
  vFixedSeeds : List CAddress := []
  base58Prefixes : Base58Type → List Nat := fun _ => []
  fRequireRPCPassword : Bool := false
  fMiningRequiresPeers : Bool := false
  fDefaultCheckMemPool : Bool := false
  fAllowMinDifficultyBlocks : Bool := false
  fRequireStandard : Bool := false
  fMineBlocksOnDemand : Bool := false
  fSkipProofOfWorkCheck : Bool := false
  fTestnetToBeDeprecatedFieldRPC : Bool := false

/-- The three static checkpoint maps. -/
inductive MapObject where
  | mapCheckpoints
  | mapCheckpointsTestnet
  | mapCheckpointsRegtest
  deriving DecidableEq, Repr

/-- The contents of a static checkpoint map: (height, hash) pairs by height. -/
def MapObject.entries : MapObject → List (Int × Nat)
  | .mapCheckpoints => [(0, 0x001)]
  | .mapCheckpointsTestnet => [(0, 0x001)]
  | .mapCheckpointsRegtest => [(0, 0x001)]

/-- The record `Checkpoints::CCheckpointData`; the first field is a pointer to a map. -/
structure CCheckpointData where
  mapCheckpoints : MapObject
  nTimeLastCheckpoint : Int
  nTransactionsLastCheckpoint : Int
  fTransactionsPerDay : ℚ
  deriving DecidableEq

/-- The static table `data`. -/
def data : CCheckpointData :=
  { mapCheckpoints := .mapCheckpoints
    nTimeLastCheckpoint := 1512025515
    nTransactionsLastCheckpoint := 10
    fTransactionsPerDay := 60000 }

/-- The static table `dataTestnet`. -/
def dataTestnet : CCheckpointData :=
  { mapCheckpoints := .mapCheckpointsTestnet
    nTimeLastCheckpoint := 1512025519
    nTransactionsLastCheckpoint := 1488
    fTransactionsPerDay := 300 }

/-- The static table `dataRegtest`. -/
def dataRegtest : CCheckpointData :=
  { mapCheckpoints := .mapCheckpointsRegtest
    nTimeLastCheckpoint := 0
    nTransactionsLastCheckpoint := 0
    fTransactionsPerDay := 0 }

/-! ## Constructors -/

/-- The macro `assert(c)`: abort with the asserted expression when `c` is false. -/
def assert (c : Bool) (expr : String) : Except Failure Unit :=
  if c then pure () else throw (.assertion expr)

/-- The value `~arith_uint256(0) >> k`. -/
def allOnesShiftedRight (k : Nat) : Nat := ((2 ^ 256 - 1) >>> k) % 2 ^ 256

/-- Assignment `base58Prefixes[t] = v`. -/
def assignBase58 (f : Base58Type → List Nat) (t : Base58Type) (v : List Nat) :
    Base58Type → List Nat :=
  fun k => if k = t then v else f k

/-- The bytes of a C string up to its terminator. -/
def cstrBytes (s : String) : List Nat := s.data.map Char.toNat

/-- The genesis coinbase transaction `txNew` that `CMainParams()` assembles. -/
def genesisTx (x : Externals) (nGenesisSubsidy : Int) : CMutableTransaction :=
  let pszTimestamp := "shanghai stock index closed at 2343.57, on 30th Dec., 2017"
  let txNew : CMutableTransaction := {}
  let txNew := { txNew with vin := List.replicate 1 ({} : CTxIn) }
  let txNew := { txNew with vout := List.replicate 1 ({} : CTxOut) }
  let scriptSig : CScript :=
    [.int64 0x1d00ffff, .scriptNum 4, .bytes (cstrBytes pszTimestamp)]
  let txNew := { txNew with vin := txNew.vin.modify (fun i => { i with scriptSig := scriptSig }) 0 }
  let nValue := nGenesisSubsidy * x.COIN
  let txNew := { txNew with vout := txNew.vout.modify (fun o => { o with nValue := nValue }) 0 }
  let scriptPubKey : CScript :=
    [.bytes (x.ParseHex "04cd418a4e7344fd3976b49e7bf137f7cec2d583490b578168efbda667e51d5cff158623244da94b719dd8efe63b4cec2425f15ee3025b38b2db073fb2eef8b592"), .OP_CHECKSIG]
  { txNew with vout := txNew.vout.modify (fun o => { o with scriptPubKey := scriptPubKey }) 0 }

/-- The genesis block as `CMainParams()` leaves it, from the block `g` it starts with. -/
def mainGenesis (x : Externals) (nGenesisSubsidy : Int) (g : CBlock) : CBlock :=
  let vtx := g.vtx ++ [genesisTx x nGenesisSubsidy]
  { g with
    vtx := vtx
    hashPrevBlock := 0
    hashMerkleRoot := x.BuildMerkleTree vtx
    nVersion := 1
    nTime := 1411666331
    nBits := 0x1d00ffff
    nNonce := 2056985438 }

/-- The assignments of `CMainParams::CMainParams()`, on the base-class object `self`. -/
def CMainParams.body (x : Externals) (self : CChainParams) : CChainParams :=
  let nGenesisSubsidy := 200
  let genesis := mainGenesis x nGenesisSubsidy self.genesis
  { self with
    strNetworkID := "main"
    pchMessageStart := (((self.pchMessageStart.set 0 0x90).set 1 0x0d).set 2 0xf1).set 3 0x0d
    vAlertPubKey := x.ParseHex "0420072dbff945ab3dbd3ad0c4ac98397af586fb655d5151c087057a132daec563ca70654af670017796252dcb4d058d50d027c0bec058b12d06688ff6518fdcb8"
    nDefaultPort := 9488
    bnProofOfWorkLimit := allOnesShiftedRight 8
    nSubsidyHalvingInterval := 2100000
    nEnforceBlockUpgradeMajority := 750
    nRejectBlockOutdatedMajority := 950
    nToCheckBlockUpgradeMajority := 1000
    nMinerThreads := 1
    nTargetTimespan := 60 * 60
    nTargetSpacing := 1 * 60
    nGenesisSubsidy := nGenesisSubsidy
    genesis := genesis
    hashGenesisBlock := x.GetHash genesis.toCBlockHeader
    base58Prefixes := assignBase58 (assignBase58 (assignBase58 (assignBase58 (assignBase58 self.base58Prefixes .PUBKEY_ADDRESS [35]) .SCRIPT_ADDRESS [65]) .SECRET_KEY [45]) .EXT_PUBLIC_KEY [0x04, 0x88, 0xEE, 0x35]) .EXT_SECRET_KEY [0x04, 0x88, 0xEE, 0x45]
    fRequireRPCPassword := true
    fMiningRequiresPeers := !true
    fDefaultCheckMemPool := false
    fAllowMinDifficultyBlocks := !false
    fRequireStandard := true
    fMineBlocksOnDemand := false
    fSkipProofOfWorkCheck := false
    fTestnetToBeDeprecatedFieldRPC := false }

/-- The constructor `CMainParams::CMainParams()`. Its two `assert` lines are comments
in the source, so no path of it aborts. -/
def CMainParams (x : Externals) (self : CChainParams) : Except Failure CChainParams :=
  pure (CMainParams.body x self)

/-- The assignments of `CTestNetParams()` up to `hashGenesisBlock = genesis.GetHash()`. -/
def CTestNetParams.bodyToHash (x : Externals) (self : CChainParams) : CChainParams :=
  let genesis : CBlock := { self.genesis with nTime := 1411666331, nBits := 0x207fffff, nNonce := 6 }
  { self with
    strNetworkID := "test"
    pchMessageStart := (((self.pchMessageStart.set 0 0xC0).set 1 0x1d).set 2 0xf1).set 3 0x0d
    vAlertPubKey := x.ParseHex "045d2d29beffb0a0cbea44f266286ff8b1d11c035538fbb4dadcf6b4073b08f318afea74f01d5a3782e72a22273fb01ab40e99d93adff488236585cc8031323e7c"
    nDefaultPort := 19488
    bnProofOfWorkLimit := allOnesShiftedRight 1
    nEnforceBlockUpgradeMajority := 51
    nRejectBlockOutdatedMajority := 75
    nToCheckBlockUpgradeMajority := 100
    nMinerThreads := 0
    nTargetTimespan := 14 * 24 * 60 * 60
    nTargetSpacing := 10 * 60
    genesis := genesis
    hashGenesisBlock := x.GetHash genesis.toCBlockHeader }

/-- The assignments of `CTestNetParams()` after its `assert`. -/
def CTestNetParams.bodyRest (self : CChainParams) : CChainParams :=
  { self with
    vFixedSeeds := []
    vSeeds := []
    base58Prefixes := assignBase58 (assignBase58 (assignBase58 (assignBase58 (assignBase58 self.base58Prefixes .PUBKEY_ADDRESS [111]) .SCRIPT_ADDRESS [196]) .SECRET_KEY [239]) .EXT_PUBLIC_KEY [0x04, 0x35, 0x87, 0xCF]) .EXT_SECRET_KEY [0x04, 0x35, 0x83, 0x94]
    fRequireRPCPassword := true
    fMiningRequiresPeers := true
    fDefaultCheckMemPool := false
    fAllowMinDifficultyBlocks := true
    fRequireStandard := false
    fMineBlocksOnDemand := false
    fTestnetToBeDeprecatedFieldRPC := true }

/-- The constructor `CTestNetParams::CTestNetParams()`: the `CMainParams` constructor,
then the body, which aborts when the genesis hash is not the recorded one. -/
def CTestNetParams (x : Externals) (self : CChainParams) : Except Failure CChainParams := do
  let self ← CMainParams x self
  let self := CTestNetParams.bodyToHash x self
  assert (self.hashGenesisBlock == 0x439b64c567dc10054382e60c9ff2660d1cdfb8db90ff2d5309a83527cb704c59) "hashGenesisBlock == uint256S(0x439b64c567dc10054382e60c9ff2660d1cdfb8db90ff2d5309a83527cb704c59)"
  pure (CTestNetParams.bodyRest self)

/-- The assignments of `CRegTestParams()` up to `hashGenesisBlock = genesis.GetHash()`. -/
def CRegTestParams.bodyToHash (x : Externals) (self : CChainParams) : CChainParams :=
  let genesis : CBlock := { self.genesis with nTime := 1296688602, nBits := 0x207fffff, nNonce := 2 }
  { self with
    strNetworkID := "regtest"
    pchMessageStart := (((self.pchMessageStart.set 0 0x0b).set 1 0xad).set 2 0xf1).set 3 0x0d
    nDefaultPort := 29488
    bnProofOfWorkLimit := allOnesShiftedRight 1
    nSubsidyHalvingInterval := 150
    nEnforceBlockUpgradeMajority := 750
    nRejectBlockOutdatedMajority := 950
    nToCheckBlockUpgradeMajority := 1000
    nMinerThreads := 1
    nTargetTimespan := 14 * 24 * 60 * 60
    nTargetSpacing := 10 * 60
    genesis := genesis
    hashGenesisBlock := x.GetHash genesis.toCBlockHeader }

/-- The assignments of `CRegTestParams()` after its `assert`. -/
def CRegTestParams.bodyRest (self : CChainParams) : CChainParams :=
  { self with
    vFixedSeeds := []
    vSeeds := []
    fRequireRPCPassword := false
    fMiningRequiresPeers := false
    fDefaultCheckMemPool := true
    fAllowMinDifficultyBlocks := true
    fRequireStandard := false
    fMineBlocksOnDemand := true
    fTestnetToBeDeprecatedFieldRPC := false }

/-- The constructor `CRegTestParams::CRegTestParams()`: the `CTestNetParams`
constructor, then the body, which aborts when the genesis hash is not the recorded one. -/
def CRegTestParams (x : Externals) (self : CChainParams) : Except Failure CChainParams := do
  let self ← CTestNetParams x self
  let self := CRegTestParams.bodyToHash x self
  assert (self.hashGenesisBlock == 0x07eb408b27b90773e53bc7c803eb02cf1f725375b67905f80c3c03c821395809) "hashGenesisBlock == uint256S(0x07eb408b27b90773e53bc7c803eb02cf1f725375b67905f80c3c03c821395809)"
  pure (CRegTestParams.bodyRest self)

/-- The assignments of `CUnitTestParams::CUnitTestParams()`. -/
def CUnitTestParams.body (self : CChainParams) : CChainParams :=
  { self with
    strNetworkID := "unittest"
    nDefaultPort := 18445
    vFixedSeeds := []
    vSeeds := []
    fRequireRPCPassword := false
    fMiningRequiresPeers := false
    fDefaultCheckMemPool := true
    fAllowMinDifficultyBlocks := false
    fMineBlocksOnDemand := true }

/-- The constructor `CUnitTestParams::CUnitTestParams()`: the `CMainParams`
constructor, then the body. -/
def CUnitTestParams (x : Externals) (self : CChainParams) : Except Failure CChainParams := do
  let self ← CMainParams x self
  pure (CUnitTestParams.body self)

/-- The published setters of `CUnitTestParams`, each with its argument. -/
inductive Setter where
  | setSubsidyHalvingInterval (anSubsidyHalvingInterval : Int)
  | setEnforceBlockUpgradeMajority (anEnforceBlockUpgradeMajority : Int)
  | setRejectBlockOutdatedMajority (anRejectBlockOutdatedMajority : Int)
  | setToCheckBlockUpgradeMajority (anToCheckBlockUpgradeMajority : Int)
  | setDefaultCheckMemPool (afDefaultCheckMemPool : Bool)
  | setAllowMinDifficultyBlocks (afAllowMinDifficultyBlocks : Bool)
  | setSkipProofOfWorkCheck (afSkipProofOfWorkCheck : Bool)
  deriving DecidableEq, Repr

/-- The body of a setter, on the unit-test object. -/
def Setter.run : Setter → CChainParams → CChainParams
  | .setSubsidyHalvingInterval v, self => { self with nSubsidyHalvingInterval := v }
  | .setEnforceBlockUpgradeMajority v, self => { self with nEnforceBlockUpgradeMajority := v }
  | .setRejectBlockOutdatedMajority v, self => { self with nRejectBlockOutdatedMajority := v }
  | .setToCheckBlockUpgradeMajority v, self => { self with nToCheckBlockUpgradeMajority := v }
  | .setDefaultCheckMemPool v, self => { self with fDefaultCheckMemPool := v }
  | .setAllowMinDifficultyBlocks v, self => { self with fAllowMinDifficultyBlocks := v }
  | .setSkipProofOfWorkCheck v, self => { self with fSkipProofOfWorkCheck := v }

/-! ## The registry: static objects, selection and lookup -/

/-- The addresses of the four static profile objects. -/
inductive ParamsObject where
  | mainParams
  | testNetParams
  | regTestParams
  | unitTestParams
  deriving DecidableEq, Repr

/-- The file-scope state: the four static objects and `pCurrentParams` (`none` is the
null pointer). -/
structure Registry where
  mainParams : CChainParams
  testNetParams : CChainParams
  regTestParams : CChainParams
  unitTestParams : CChainParams
  pCurrentParams : Option ParamsObject

/-- The object at an address. -/
def Registry.deref (s : Registry) : ParamsObject → CChainParams
  | .mainParams => s.mainParams
  | .testNetParams => s.testNetParams
  | .regTestParams => s.regTestParams
  | .unitTestParams => s.unitTestParams

/-- Static initialisation of the translation unit: `pCurrentParams = 0` and the four
objects constructed in the order of their definitions. -/
def staticInit (x : Externals) : Except Failure Registry := do
  let mainParams ← CMainParams x {}
  let testNetParams ← CTestNetParams x {}
  let regTestParams ← CRegTestParams x {}
  let unitTestParams ← CUnitTestParams x {}
  pure { mainParams := mainParams, testNetParams := testNetParams, regTestParams := regTestParams, unitTestParams := unitTestParams, pCurrentParams := none }

/-- The virtual method `Checkpoints()`, dispatched on the class of the object. -/
def Checkpoints : ParamsObject → CCheckpointData
  | .mainParams => data
  | .testNetParams => dataTestnet
  | .regTestParams => dataRegtest
  | .unitTestParams => data

/-- The function `ModifiableParams()`; the result is the address it returns. -/
def ModifiableParams (s : Registry) : Except Failure ParamsObject := do
  assert s.pCurrentParams.isSome "pCurrentParams"
  assert (s.pCurrentParams == some .unitTestParams) "pCurrentParams==&unitTestParams"
  pure .unitTestParams

/-- The function `Params()`; the result is the address of the object it returns. -/
def Params (s : Registry) : Except Failure ParamsObject :=
  match s.pCurrentParams with
  | none => throw (.assertion "pCurrentParams")
  | some p => pure p

/-- The function `Params(CBaseChainParams::Network)`; the result is the address of the
object it returns. -/
def ParamsOf (network : Network) : Except Failure ParamsObject :=
  match network with
  | .MAIN => pure .mainParams
  | .TESTNET => pure .testNetParams
  | .REGTEST => pure .regTestParams
  | .UNITTEST => pure .unitTestParams
  | _ => throw (.assertion "Unimplemented network")

/-- The function `SelectParams(network)`. -/
def SelectParams (x : Externals) (network : Network) (s : Registry) : Except Failure Registry := do
  x.SelectBaseParams network
  let p ← ParamsOf network
  pure { s with pCurrentParams := some p }

/-- The function `SelectParamsFromCommandLine()`; `network` is the value that the
external `NetworkIdFromCommandLine()` returned. The result is the returned `bool` and
the registry after the call. -/
def SelectParamsFromCommandLine (x : Externals) (network : Network) (s : Registry) :
    Except Failure (Bool × Registry) :=
  if network = .MAX_NETWORK_TYPES then
    pure (false, s)
  else do
    let s ← SelectParams x network s
    pure (true, s)

/-- A call `ModifiableParams()->setter(v)` through a pointer that was obtained from
`ModifiableParams()`: the setter runs on the unit-test object. -/
def Registry.applySetter (m : Setter) (s : Registry) : Registry :=
  { s with unitTestParams := m.run s.unitTestParams }

/-- The registry states that a process can be in: the state after static
initialisation, and any state after a `SelectParams` call that returned or a setter
call. -/
inductive Reachable (x : Externals) : Registry → Prop where
  | init {s : Registry} : staticInit x = .ok s → Reachable x s
  | select {s s1 : Registry} (network : Network) :
      Reachable x s → SelectParams x network s = .ok s1 → Reachable x s1
  | setter {s : Registry} (m : Setter) : Reachable x s → Reachable x (s.applySetter m)

/-- The main object after a static initialisation that completed. -/
def mainValue (x : Externals) : CChainParams := CMainParams.body x {}

/-- The test object after a static initialisation that completed. -/
def testValue (x : Externals) : CChainParams :=
  CTestNetParams.bodyRest (CTestNetParams.bodyToHash x (CMainParams.body x {}))

/-- The regtest object after a static initialisation that completed. -/
def regTestValue (x : Externals) : CChainParams :=
  CRegTestParams.bodyRest (CRegTestParams.bodyToHash x (testValue x))

/-- The unit-test object after a static initialisation that completed. -/
def unitTestValue (x : Externals) : CChainParams :=
  CUnitTestParams.body (CMainParams.body x {})

/-- The unit-test object after the setter calls `ms`, first call first. -/
def runSetters (ms : List Setter) (self : CChainParams) : CChainParams :=
  ms.foldl (fun p m => m.run p) self

/-- An instance of the externals under which static initialisation completes: the block
hash is read off the nonce, so that the two asserted headers get their recorded hashes. -/
def sampleExternals : Externals :=
  { COIN := 100000000
    ParseHex := fun h => cstrBytes h
    BuildMerkleTree := fun vtx => vtx.length
    GetHash := fun h =>
      if h.nNonce = 6 then 0x439b64c567dc10054382e60c9ff2660d1cdfb8db90ff2d5309a83527cb704c59
      else if h.nNonce = 2 then 0x07eb408b27b90773e53bc7c803eb02cf1f725375b67905f80c3c03c821395809
      else h.nNonce
    SelectBaseParams := fun n =>
      if n = .MAX_NETWORK_TYPES then throw (.assertion "Unimplemented network") else pure () }

/-- The registry that static initialisation produces under `sampleExternals`. -/
def sampleRegistry : Registry :=
  { mainParams := mainValue sampleExternals
    testNetParams := testValue sampleExternals
    regTestParams := regTestValue sampleExternals
    unitTestParams := unitTestValue sampleExternals
    pCurrentParams := none }

/-! ## Shared lemmas -/

theorem CMainParams_eq (x : Externals) (self : CChainParams) :
    CMainParams x self = .ok (CMainParams.body x self) := rfl

theorem CUnitTestParams_eq (x : Externals) (self : CChainParams) :
    CUnitTestParams x self = .ok (CUnitTestParams.body (CMainParams.body x self)) := rfl

theorem assert_bind_ok {α : Type} (c : Bool) (e : String) (k : Except Failure α) (r : α) :
    (assert c e >>= fun _ => k) = .ok r ↔ c = true ∧ k = .ok r := by
  cases c <;>
    simp [assert, bind, Except.bind, pure, Except.pure, throw, throwThe, MonadExceptOf.throw]

theorem CTestNetParams_ok {x : Externals} {self p : CChainParams}
    (h : CTestNetParams x self = .ok p) :
    (CTestNetParams.bodyToHash x (CMainParams.body x self)).hashGenesisBlock
        = 0x439b64c567dc10054382e60c9ff2660d1cdfb8db90ff2d5309a83527cb704c59
      ∧ p = CTestNetParams.bodyRest (CTestNetParams.bodyToHash x (CMainParams.body x self)) := by
  unfold CTestNetParams at h
  rw [CMainParams_eq] at h
  change (assert _ _ >>= fun _ => _) = _ at h
  rw [assert_bind_ok] at h
  obtain ⟨hc, hp⟩ := h
  refine ⟨by simpa using hc, ?_⟩
  cases hp
  rfl

theorem CRegTestParams_ok {x : Externals} {self p : CChainParams}
    (h : CRegTestParams x self = .ok p) :
    ∃ t, CTestNetParams x self = .ok t
      ∧ (CRegTestParams.bodyToHash x t).hashGenesisBlock
        = 0x07eb408b27b90773e53bc7c803eb02cf1f725375b67905f80c3c03c821395809
      ∧ p = CRegTestParams.bodyRest (CRegTestParams.bodyToHash x t) := by
  unfold CRegTestParams at h
  cases ht : CTestNetParams x self with
  | error e => rw [ht] at h; cases h
  | ok t =>
    rw [ht] at h
    change (assert _ _ >>= fun _ => _) = _ at h
    rw [assert_bind_ok] at h
    obtain ⟨hc, hp⟩ := h
    refine ⟨t, rfl, by simpa using hc, ?_⟩
    cases hp
    rfl

theorem staticInit_ok {x : Externals} {s : Registry} (h : staticInit x = .ok s) :
    s.mainParams = mainValue x ∧ s.testNetParams = testValue x
      ∧ s.regTestParams = regTestValue x ∧ s.unitTestParams = unitTestValue x
      ∧ s.pCurrentParams = none := by
  unfold staticInit at h
  rw [CMainParams_eq, CUnitTestParams_eq] at h
  cases ht : CTestNetParams x {} with
  | error e => rw [ht] at h; cases h
  | ok t =>
    cases hr : CRegTestParams x {} with
    | error e => rw [ht, hr] at h; cases h
    | ok r =>
      rw [ht, hr] at h
      obtain ⟨-, rfl⟩ := CTestNetParams_ok ht
      obtain ⟨t1, ht1, -, rfl⟩ := CRegTestParams_ok hr
      obtain ⟨-, rfl⟩ := CTestNetParams_ok ht1
      cases h
      exact ⟨rfl, rfl, rfl, rfl, rfl⟩

theorem SelectParams_ok {x : Externals} {n : Network} {s s1 : Registry}
    (h : SelectParams x n s = .ok s1) :
    ∃ p, ParamsOf n = .ok p ∧ s1 = { s with pCurrentParams := some p } := by
  unfold SelectParams at h
  cases hb : x.SelectBaseParams n with
  | error e => rw [hb] at h; cases h
  | ok u =>
    cases hp : ParamsOf n with
    | error e => rw [hb, hp] at h; cases h
    | ok p =>
      rw [hb, hp] at h
      cases h
      exact ⟨p, rfl, rfl⟩

theorem runSetters_preserves {α : Type} (f : CChainParams → α)
    (hf : ∀ m p, f (Setter.run m p) = f p) (ms : List Setter) (p : CChainParams) :
    f (runSetters ms p) = f p := by
  induction ms generalizing p with
  | nil => rfl
  | cons m ms ih =>
    show f (runSetters ms (m.run p)) = f p
    rw [ih, hf]

theorem runSetters_append_one (ms : List Setter) (m : Setter) (p : CChainParams) :
    runSetters (ms ++ [m]) p = m.run (runSetters ms p) := by
  simp [runSetters, List.foldl_append]

/-- In every reachable state the main, test and regtest objects are as constructed, and
the unit-test object is the constructed one after some sequence of setter calls. -/
theorem Reachable.objects {x : Externals} {s : Registry} (h : Reachable x s) :
    s.mainParams = mainValue x ∧ s.testNetParams = testValue x
      ∧ s.regTestParams = regTestValue x
      ∧ ∃ ms, s.unitTestParams = runSetters ms (unitTestValue x) := by
  induction h with
  | init h0 =>
    obtain ⟨h1, h2, h3, h4, -⟩ := staticInit_ok h0
    exact ⟨h1, h2, h3, [], h4⟩
  | select n _ hsel ih =>
    obtain ⟨p, -, rfl⟩ := SelectParams_ok hsel
    exact ih
  | setter m _ ih =>
    obtain ⟨h1, h2, h3, ms, h4⟩ := ih
    refine ⟨h1, h2, h3, ms ++ [m], ?_⟩
    rw [runSetters_append_one, ← h4]
    rfl

theorem staticInit_sample : staticInit sampleExternals = .ok sampleRegistry := rfl

theorem reachable_sample : Reachable sampleExternals sampleRegistry :=
  .init staticInit_sample

theorem strNetworkID_run (m : Setter) (p : CChainParams) :
    (m.run p).strNetworkID = p.strNetworkID := by
  cases m <;> rfl

/-! ## Selection and lookup -/

/-- C1: for each of MAIN, TESTNET, REGTEST, UNITTEST and from any registry state,
`SelectParams(n)` returns (given that the external `SelectBaseParams(n)` returns), after
it `Params()` succeeds with the very object that `Params(n)` returns, and in a state
reached by the program that object's `strNetworkID` is "main", "test", "regtest",
"unittest" respectively. -/
theorem SelectParams_then_Params (x : Externals) (s : Registry) (n : Network)
    (hn : n ≠ .MAX_NETWORK_TYPES) (hb : x.SelectBaseParams n = .ok ()) :
    ∃ s1 obj, SelectParams x n s = .ok s1 ∧ Params s1 = .ok obj ∧ ParamsOf n = .ok obj
      ∧ (Reachable x s → (s1.deref obj).strNetworkID =
          match n with
          | .MAIN => "main"
          | .TESTNET => "test"
          | .REGTEST => "regtest"
          | _ => "unittest") := by
  cases n with
  | MAX_NETWORK_TYPES => exact absurd rfl hn
  | MAIN =>
    refine ⟨{ s with pCurrentParams := some .mainParams }, .mainParams, ?_, rfl, rfl, ?_⟩
    · simp [SelectParams, hb, ParamsOf, bind, Except.bind, pure, Except.pure]
    · intro hs
      obtain ⟨h1, -⟩ := hs.objects
      show s.mainParams.strNetworkID = "main"
      rw [h1]
      rfl
  | TESTNET =>
    refine ⟨{ s with pCurrentParams := some .testNetParams }, .testNetParams, ?_, rfl, rfl, ?_⟩
    · simp [SelectParams, hb, ParamsOf, bind, Except.bind, pure, Except.pure]
    · intro hs
      obtain ⟨-, h2, -⟩ := hs.objects
      show s.testNetParams.strNetworkID = "test"
      rw [h2]
      rfl
  | REGTEST =>
    refine ⟨{ s with pCurrentParams := some .regTestParams }, .regTestParams, ?_, rfl, rfl, ?_⟩
    · simp [SelectParams, hb, ParamsOf, bind, Except.bind, pure, Except.pure]
    · intro hs
      obtain ⟨-, -, h3, -⟩ := hs.objects
      show s.regTestParams.strNetworkID = "regtest"
      rw [h3]
      rfl
  | UNITTEST =>
    refine ⟨{ s with pCurrentParams := some .unitTestParams }, .unitTestParams, ?_, rfl, rfl, ?_⟩
    · simp [SelectParams, hb, ParamsOf, bind, Except.bind, pure, Except.pure]
    · intro hs
      obtain ⟨-, -, -, ms, h4⟩ := hs.objects
      show s.unitTestParams.strNetworkID = "unittest"
      rw [h4, runSetters_preserves CChainParams.strNetworkID strNetworkID_run]
      rfl

/-- Instance of C1: selecting REGTEST in the state after static initialisation. -/
theorem SelectParams_then_Params_witness :
    ∃ s1 obj, SelectParams sampleExternals .REGTEST sampleRegistry = .ok s1
      ∧ Params s1 = .ok obj ∧ ParamsOf .REGTEST = .ok obj
      ∧ (s1.deref obj).strNetworkID = "regtest" := by
  obtain ⟨s1, obj, h1, h2, h3, h4⟩ :=
    SelectParams_then_Params sampleExternals sampleRegistry .REGTEST (by decide) rfl
  exact ⟨s1, obj, h1, h2, h3, h4 reachable_sample⟩

/-- C2: in the state after static initialisation `pCurrentParams` is null and `Params()`
fails the assertion `pCurrentParams`; in any state `Params()` fails that assertion when
the pointer is null, and it returns an object exactly when the pointer is not null. -/
theorem Params_unselected_fails (x : Externals) (s0 : Registry)
    (h0 : staticInit x = .ok s0) :
    s0.pCurrentParams = none ∧ Params s0 = .error (.assertion "pCurrentParams")
      ∧ (∀ s : Registry, s.pCurrentParams = none →
          Params s = .error (.assertion "pCurrentParams"))
      ∧ ∀ s : Registry, (∃ obj, Params s = .ok obj) ↔ s.pCurrentParams ≠ none := by
  have hnone : ∀ s : Registry, s.pCurrentParams = none →
      Params s = .error (.assertion "pCurrentParams") := by
    intro s hs
    simp [Params, hs, throw, throwThe, MonadExceptOf.throw]
  obtain ⟨-, -, -, -, h5⟩ := staticInit_ok h0
  refine ⟨h5, hnone s0 h5, hnone, ?_⟩
  intro s
  constructor
  · rintro ⟨obj, h⟩ hs
    rw [hnone s hs] at h
    cases h
  · intro hs
    cases hp : s.pCurrentParams with
    | none => exact absurd hp hs
    | some p => exact ⟨p, by simp [Params, hp, pure, Except.pure]⟩

/-- Instance of C2: the state after static initialisation under `sampleExternals`. -/
theorem Params_unselected_fails_witness :
    staticInit sampleExternals = .ok sampleRegistry
      ∧ Params sampleRegistry = .error (.assertion "pCurrentParams") :=
  ⟨staticInit_sample,
    (Params_unselected_fails sampleExternals sampleRegistry staticInit_sample).2.1⟩

/-- C3: `ModifiableParams()` returns exactly when `pCurrentParams` points to the
unit-test object, and what it returns is that object; with a null pointer it fails the
assertion `pCurrentParams`, and with the main, test or regtest object active it fails the
assertion `pCurrentParams==&unitTestParams`. -/
theorem ModifiableParams_iff_unittest (s : Registry) :
    ((∃ obj, ModifiableParams s = .ok obj) ↔ s.pCurrentParams = some .unitTestParams)
      ∧ (ModifiableParams s = .ok .unitTestParams ↔ s.pCurrentParams = some .unitTestParams)
      ∧ (s.pCurrentParams = none ↔ ModifiableParams s = .error (.assertion "pCurrentParams"))
      ∧ ((s.pCurrentParams = some .mainParams ∨ s.pCurrentParams = some .testNetParams
            ∨ s.pCurrentParams = some .regTestParams) ↔
          ModifiableParams s = .error (.assertion "pCurrentParams==&unitTestParams")) := by
  cases hp : s.pCurrentParams with
  | none =>
    simp [ModifiableParams, hp, assert, bind, Except.bind, pure, Except.pure, throw, throwThe,
      MonadExceptOf.throw]
  | some p =>
    cases p <;>
      simp [ModifiableParams, hp, assert, bind, Except.bind, pure, Except.pure, throw, throwThe,
        MonadExceptOf.throw]

/-- C4: `Params(network)` returns the main, test, regtest and unit-test object for
MAIN, TESTNET, REGTEST and UNITTEST and for no other identifier, and for every
identifier outside these four (MAX_NETWORK_TYPES) it fails the assertion
"Unimplemented network". -/
theorem ParamsOf_closed_set :
    (∀ n, ParamsOf n = .ok .mainParams ↔ n = .MAIN)
      ∧ (∀ n, ParamsOf n = .ok .testNetParams ↔ n = .TESTNET)
      ∧ (∀ n, ParamsOf n = .ok .regTestParams ↔ n = .REGTEST)
      ∧ (∀ n, ParamsOf n = .ok .unitTestParams ↔ n = .UNITTEST)
      ∧ ParamsOf .MAX_NETWORK_TYPES = .error (.assertion "Unimplemented network")
      ∧ ∀ n, (n ≠ .MAIN ∧ n ≠ .TESTNET ∧ n ≠ .REGTEST ∧ n ≠ .UNITTEST) ↔
          ParamsOf n = .error (.assertion "Unimplemented network") := by
  refine ⟨?_, ?_, ?_, ?_, rfl, ?_⟩ <;> intro n <;> cases n <;>
    simp [ParamsOf, pure, Except.pure, throw, throwThe, MonadExceptOf.throw]

/-! ## Genesis hash check -/

/-- C5: a constructed test or regtest object has the recorded genesis hash, because
their constructors assert it; the `CMainParams` constructor, whose assertion is a comment
in the source, returns under `sampleExternals` with a genesis hash (the nonce,
2056985438) that is not the recorded 0x0000000061b1…e942, and static initialisation
completes in that case. -/
theorem genesis_hash_check_missing_in_main :
    (∀ (x : Externals) (self p : CChainParams), CTestNetParams x self = .ok p →
        p.hashGenesisBlock = 0x439b64c567dc10054382e60c9ff2660d1cdfb8db90ff2d5309a83527cb704c59)
      ∧ (∀ (x : Externals) (self p : CChainParams), CRegTestParams x self = .ok p →
        p.hashGenesisBlock = 0x07eb408b27b90773e53bc7c803eb02cf1f725375b67905f80c3c03c821395809)
      ∧ CMainParams sampleExternals {} = .ok (mainValue sampleExternals)
      ∧ (mainValue sampleExternals).hashGenesisBlock = 2056985438
      ∧ (mainValue sampleExternals).hashGenesisBlock
          ≠ 0x0000000061b1aca334b059920fed7bace2336ea4d23d63428c7aee04da49e942
      ∧ staticInit sampleExternals = .ok sampleRegistry
      ∧ sampleRegistry.mainParams = mainValue sampleExternals := by
  refine ⟨?_, ?_, rfl, rfl, by decide, rfl, rfl⟩
  · intro x self p h
    obtain ⟨hh, rfl⟩ := CTestNetParams_ok h
    exact hh
  · intro x self p h
    obtain ⟨t, -, hh, rfl⟩ := CRegTestParams_ok h
    exact hh

/-! ## Concrete scenarios -/

theorem base58Prefixes_run (m : Setter) (p : CChainParams) :
    (m.run p).base58Prefixes = p.base58Prefixes := by
  cases m <;> rfl

/-- C7: after `SelectParams(MAIN)` the active object has default port 9488, message
start bytes 0x90 0x0d 0xf1 0x0d, a `Checkpoints()` table whose last-checkpoint time is
1512025515, and `fRequireRPCPassword = true`, `fRequireStandard = true`,
`fMineBlocksOnDemand = false`. -/
theorem select_main_scenario (x : Externals) (s : Registry) (hs : Reachable x s)
    (hb : x.SelectBaseParams .MAIN = .ok ()) :
    ∃ s1 obj, SelectParams x .MAIN s = .ok s1 ∧ Params s1 = .ok obj
      ∧ (s1.deref obj).nDefaultPort = 9488
      ∧ (s1.deref obj).pchMessageStart = [0x90, 0x0d, 0xf1, 0x0d]
      ∧ (Checkpoints obj).nTimeLastCheckpoint = 1512025515
      ∧ (s1.deref obj).fRequireRPCPassword = true
      ∧ (s1.deref obj).fRequireStandard = true
      ∧ (s1.deref obj).fMineBlocksOnDemand = false := by
  obtain ⟨h1, -⟩ := hs.objects
  refine ⟨{ s with pCurrentParams := some .mainParams }, .mainParams, ?_, rfl, ?_⟩
  · simp [SelectParams, hb, ParamsOf, bind, Except.bind, pure, Except.pure]
  · show s.mainParams.nDefaultPort = 9488 ∧ s.mainParams.pchMessageStart = _
      ∧ data.nTimeLastCheckpoint = 1512025515 ∧ s.mainParams.fRequireRPCPassword = true
      ∧ s.mainParams.fRequireStandard = true ∧ s.mainParams.fMineBlocksOnDemand = false
    rw [h1]
    exact ⟨rfl, rfl, rfl, rfl, rfl, rfl⟩

/-- Instance of C7: selecting MAIN in the state after static initialisation. -/
theorem select_main_scenario_witness :
    ∃ s1 obj, SelectParams sampleExternals .MAIN sampleRegistry = .ok s1
      ∧ Params s1 = .ok obj
      ∧ (s1.deref obj).nDefaultPort = 9488
      ∧ (s1.deref obj).pchMessageStart = [0x90, 0x0d, 0xf1, 0x0d]
      ∧ (Checkpoints obj).nTimeLastCheckpoint = 1512025515
      ∧ (s1.deref obj).fRequireRPCPassword = true
      ∧ (s1.deref obj).fRequireStandard = true
      ∧ (s1.deref obj).fMineBlocksOnDemand = false :=
  select_main_scenario sampleExternals sampleRegistry reachable_sample rfl

/-- C8: after `SelectParams(REGTEST)` the active object has
`fMineBlocksOnDemand = true`, `fRequireStandard = false`, `fDefaultCheckMemPool = true`,
and `vSeeds` and `vFixedSeeds` are empty. -/
theorem select_regtest_scenario (x : Externals) (s : Registry) (hs : Reachable x s)
    (hb : x.SelectBaseParams .REGTEST = .ok ()) :
    ∃ s1 obj, SelectParams x .REGTEST s = .ok s1 ∧ Params s1 = .ok obj
      ∧ (s1.deref obj).fMineBlocksOnDemand = true
      ∧ (s1.deref obj).fRequireStandard = false
      ∧ (s1.deref obj).fDefaultCheckMemPool = true
      ∧ (s1.deref obj).vSeeds = []
      ∧ (s1.deref obj).vFixedSeeds = [] := by
  obtain ⟨-, -, h3, -⟩ := hs.objects
  refine ⟨{ s with pCurrentParams := some .regTestParams }, .regTestParams, ?_, rfl, ?_⟩
  · simp [SelectParams, hb, ParamsOf, bind, Except.bind, pure, Except.pure]
  · show s.regTestParams.fMineBlocksOnDemand = true ∧ s.regTestParams.fRequireStandard = false
      ∧ s.regTestParams.fDefaultCheckMemPool = true ∧ s.regTestParams.vSeeds = []
      ∧ s.regTestParams.vFixedSeeds = []
    rw [h3]
    exact ⟨rfl, rfl, rfl, rfl, rfl⟩

/-- Instance of C8: selecting REGTEST in the state after static initialisation. -/
theorem select_regtest_scenario_witness :
    ∃ s1 obj, SelectParams sampleExternals .REGTEST sampleRegistry = .ok s1
      ∧ Params s1 = .ok obj
      ∧ (s1.deref obj).fMineBlocksOnDemand = true
      ∧ (s1.deref obj).fRequireStandard = false
      ∧ (s1.deref obj).fDefaultCheckMemPool = true
      ∧ (s1.deref obj).vSeeds = []
      ∧ (s1.deref obj).vFixedSeeds = [] :=
  select_regtest_scenario sampleExternals sampleRegistry reachable_sample rfl

/-- C9: `Checkpoints()` of the unit-test object returns the table `data` that the main
object returns (same map object and entries, same last-checkpoint time, transaction count
and transactions-per-day estimate); the test object returns `dataTestnet` and the regtest
object `dataRegtest`, tables that differ from `data` and from each other and point to
map objects of their own. -/
theorem Checkpoints_unittest_shares_main :
    Checkpoints .unitTestParams = Checkpoints .mainParams
      ∧ (Checkpoints .unitTestParams).mapCheckpoints = (Checkpoints .mainParams).mapCheckpoints
      ∧ (Checkpoints .unitTestParams).mapCheckpoints.entries
          = (Checkpoints .mainParams).mapCheckpoints.entries
      ∧ (Checkpoints .unitTestParams).nTimeLastCheckpoint
          = (Checkpoints .mainParams).nTimeLastCheckpoint
      ∧ (Checkpoints .unitTestParams).nTransactionsLastCheckpoint
          = (Checkpoints .mainParams).nTransactionsLastCheckpoint
      ∧ (Checkpoints .unitTestParams).fTransactionsPerDay
          = (Checkpoints .mainParams).fTransactionsPerDay
      ∧ Checkpoints .mainParams = data
      ∧ Checkpoints .testNetParams = dataTestnet
      ∧ Checkpoints .regTestParams = dataRegtest
      ∧ Checkpoints .testNetParams ≠ Checkpoints .mainParams
      ∧ Checkpoints .regTestParams ≠ Checkpoints .mainParams
      ∧ Checkpoints .testNetParams ≠ Checkpoints .regTestParams
      ∧ (Checkpoints .testNetParams).mapCheckpoints ≠ (Checkpoints .mainParams).mapCheckpoints
      ∧ (Checkpoints .regTestParams).mapCheckpoints ≠ (Checkpoints .mainParams).mapCheckpoints
      ∧ (Checkpoints .testNetParams).mapCheckpoints
          ≠ (Checkpoints .regTestParams).mapCheckpoints := by
  refine ⟨rfl, rfl, rfl, rfl, rfl, rfl, rfl, rfl, rfl, ?_, ?_, ?_, ?_, ?_, ?_⟩ <;>
    simp [Checkpoints, data, dataTestnet, dataRegtest]

/-! ## Address prefixes -/

/-- C10: in every reachable state and for each of the four objects, two different
indices among PUBKEY_ADDRESS, SCRIPT_ADDRESS, SECRET_KEY, EXT_PUBLIC_KEY and
EXT_SECRET_KEY have different byte sequences in `base58Prefixes`. -/
theorem base58Prefixes_pairwise_distinct (x : Externals) (s : Registry)
    (hs : Reachable x s) (obj : ParamsObject) (t1 t2 : Base58Type) (ht : t1 ≠ t2) :
    (s.deref obj).base58Prefixes t1 ≠ (s.deref obj).base58Prefixes t2 := by
  obtain ⟨h1, h2, h3, ms, h4⟩ := hs.objects
  have hu : s.unitTestParams.base58Prefixes = (unitTestValue x).base58Prefixes := by
    rw [h4, runSetters_preserves CChainParams.base58Prefixes base58Prefixes_run]
  cases obj
  · show s.mainParams.base58Prefixes t1 ≠ s.mainParams.base58Prefixes t2
    rw [h1]
    cases t1 <;> cases t2 <;> first
      | exact absurd rfl ht
      | simp [mainValue, CMainParams.body, assignBase58]
  · show s.testNetParams.base58Prefixes t1 ≠ s.testNetParams.base58Prefixes t2
    rw [h2]
    cases t1 <;> cases t2 <;> first
      | exact absurd rfl ht
      | simp [testValue, CTestNetParams.bodyRest, assignBase58]
  · show s.regTestParams.base58Prefixes t1 ≠ s.regTestParams.base58Prefixes t2
    rw [h3]
    cases t1 <;> cases t2 <;> first
      | exact absurd rfl ht
      | simp [regTestValue, CRegTestParams.bodyRest, CRegTestParams.bodyToHash, testValue,
          CTestNetParams.bodyRest, assignBase58]
  · show s.unitTestParams.base58Prefixes t1 ≠ s.unitTestParams.base58Prefixes t2
    rw [hu]
    cases t1 <;> cases t2 <;> first
      | exact absurd rfl ht
      | simp [unitTestValue, CUnitTestParams.body, CMainParams.body, assignBase58]

/-- Instance of C10: the script-address and secret-key prefixes of the regtest object
after static initialisation. -/
theorem base58Prefixes_pairwise_distinct_witness :
    sampleRegistry.regTestParams.base58Prefixes .SCRIPT_ADDRESS
      ≠ sampleRegistry.regTestParams.base58Prefixes .SECRET_KEY :=
  base58Prefixes_pairwise_distinct sampleExternals sampleRegistry reachable_sample
    .regTestParams .SCRIPT_ADDRESS .SECRET_KEY (by decide)

theorem pchMessageStart_run (m : Setter) (p : CChainParams) :
    (m.run p).pchMessageStart = p.pchMessageStart := by
  cases m <;> rfl

theorem genesis_run (m : Setter) (p : CChainParams) : (m.run p).genesis = p.genesis := by
  cases m <;> rfl

/-- The address prefixes of the four objects in a reachable state. -/
theorem Reachable.base58Prefixes_eq {x : Externals} {s : Registry} (hs : Reachable x s)
    (obj : ParamsObject) (t : Base58Type) :
    (s.deref obj).base58Prefixes t =
      match obj, t with
      | .mainParams, .PUBKEY_ADDRESS | .unitTestParams, .PUBKEY_ADDRESS => [35]
      | .mainParams, .SCRIPT_ADDRESS | .unitTestParams, .SCRIPT_ADDRESS => [65]
      | .mainParams, .SECRET_KEY | .unitTestParams, .SECRET_KEY => [45]
      | .mainParams, .EXT_PUBLIC_KEY | .unitTestParams, .EXT_PUBLIC_KEY => [0x04, 0x88, 0xEE, 0x35]
      | .mainParams, .EXT_SECRET_KEY | .unitTestParams, .EXT_SECRET_KEY => [0x04, 0x88, 0xEE, 0x45]
      | .testNetParams, .PUBKEY_ADDRESS | .regTestParams, .PUBKEY_ADDRESS => [111]
      | .testNetParams, .SCRIPT_ADDRESS | .regTestParams, .SCRIPT_ADDRESS => [196]
      | .testNetParams, .SECRET_KEY | .regTestParams, .SECRET_KEY => [239]
      | .testNetParams, .EXT_PUBLIC_KEY | .regTestParams, .EXT_PUBLIC_KEY => [0x04, 0x35, 0x87, 0xCF]
      | .testNetParams, .EXT_SECRET_KEY | .regTestParams, .EXT_SECRET_KEY => [0x04, 0x35, 0x83, 0x94] := by
  obtain ⟨h1, h2, h3, ms, h4⟩ := hs.objects
  have hu : s.unitTestParams.base58Prefixes = (unitTestValue x).base58Prefixes := by
    rw [h4, runSetters_preserves CChainParams.base58Prefixes base58Prefixes_run]
  cases obj
  · show s.mainParams.base58Prefixes t = _
    rw [h1]
    cases t <;> rfl
  · show s.testNetParams.base58Prefixes t = _
    rw [h2]
    cases t <;> rfl
  · show s.regTestParams.base58Prefixes t = _
    rw [h3]
    cases t <;> rfl
  · show s.unitTestParams.base58Prefixes t = _
    rw [hu]
    cases t <;> rfl

/-- The message start bytes of the four objects in a reachable state. -/
theorem Reachable.pchMessageStart_eq {x : Externals} {s : Registry} (hs : Reachable x s)
    (obj : ParamsObject) :
    (s.deref obj).pchMessageStart =
      match obj with
      | .mainParams => [0x90, 0x0d, 0xf1, 0x0d]
      | .testNetParams => [0xC0, 0x1d, 0xf1, 0x0d]
      | .regTestParams => [0x0b, 0xad, 0xf1, 0x0d]
      | .unitTestParams => [0x90, 0x0d, 0xf1, 0x0d] := by
  obtain ⟨h1, h2, h3, ms, h4⟩ := hs.objects
  cases obj
  · show s.mainParams.pchMessageStart = _
    rw [h1]
    rfl
  · show s.testNetParams.pchMessageStart = _
    rw [h2]
    rfl
  · show s.regTestParams.pchMessageStart = _
    rw [h3]
    rfl
  · show s.unitTestParams.pchMessageStart = _
    rw [h4, runSetters_preserves CChainParams.pchMessageStart pchMessageStart_run]
    rfl

/-- The genesis block time of the four objects in a reachable state. -/
theorem Reachable.genesis_nTime_eq {x : Externals} {s : Registry} (hs : Reachable x s)
    (obj : ParamsObject) :
    (s.deref obj).genesis.nTime =
      match obj with
      | .mainParams => 1411666331
      | .testNetParams => 1411666331
      | .regTestParams => 1296688602
      | .unitTestParams => 1411666331 := by
  obtain ⟨h1, h2, h3, ms, h4⟩ := hs.objects
  cases obj
  · show s.mainParams.genesis.nTime = _
    rw [h1]
    rfl
  · show s.testNetParams.genesis.nTime = _
    rw [h2]
    rfl
  · show s.regTestParams.genesis.nTime = _
    rw [h3]
    rfl
  · show s.unitTestParams.genesis.nTime = _
    rw [h4, runSetters_preserves CChainParams.genesis genesis_run]
    rfl

/-- C11 as stated fails: in the main object after static initialisation the prefixes
of EXT_PUBLIC_KEY and EXT_SECRET_KEY both begin with the byte 0x04, so the leading bytes
of the five prefixes are not pairwise distinct. -/
theorem leading_bytes_not_pairwise_distinct :
    Reachable sampleExternals sampleRegistry
      ∧ (sampleRegistry.deref .mainParams).base58Prefixes .EXT_PUBLIC_KEY = [0x04, 0x88, 0xEE, 0x35]
      ∧ (sampleRegistry.deref .mainParams).base58Prefixes .EXT_SECRET_KEY = [0x04, 0x88, 0xEE, 0x45]
      ∧ ¬ ∀ t1 t2 : Base58Type, t1 ≠ t2 →
          ((sampleRegistry.deref .mainParams).base58Prefixes t1).head?
            ≠ ((sampleRegistry.deref .mainParams).base58Prefixes t2).head? :=
  ⟨reachable_sample, rfl, rfl, fun h => h .EXT_PUBLIC_KEY .EXT_SECRET_KEY (by decide) rfl⟩

/-- C11 (amended): in every reachable state and for each of the four objects, the
leading bytes of the prefixes of two different indices are different, except for the
pair EXT_PUBLIC_KEY and EXT_SECRET_KEY, whose prefixes both begin with 0x04 and are
different sequences. -/
theorem leading_bytes_distinct_except_ext_pair (x : Externals) (s : Registry)
    (hs : Reachable x s) (obj : ParamsObject) :
    (∀ t1 t2 : Base58Type, t1 ≠ t2 →
        ¬ (t1 = .EXT_PUBLIC_KEY ∧ t2 = .EXT_SECRET_KEY) →
        ¬ (t1 = .EXT_SECRET_KEY ∧ t2 = .EXT_PUBLIC_KEY) →
        ((s.deref obj).base58Prefixes t1).head? ≠ ((s.deref obj).base58Prefixes t2).head?)
      ∧ ((s.deref obj).base58Prefixes .EXT_PUBLIC_KEY).head? = some 0x04
      ∧ ((s.deref obj).base58Prefixes .EXT_SECRET_KEY).head? = some 0x04
      ∧ (s.deref obj).base58Prefixes .EXT_PUBLIC_KEY
          ≠ (s.deref obj).base58Prefixes .EXT_SECRET_KEY := by
  refine ⟨?_, ?_, ?_, ?_⟩
  · intro t1 t2 ht h12 h21
    rw [hs.base58Prefixes_eq obj t1, hs.base58Prefixes_eq obj t2]
    cases obj <;> cases t1 <;> cases t2 <;> first
      | exact absurd rfl ht
      | decide
      | exact absurd (And.intro (Eq.refl Base58Type.EXT_PUBLIC_KEY) (Eq.refl Base58Type.EXT_SECRET_KEY)) h12
      | exact absurd (And.intro (Eq.refl Base58Type.EXT_SECRET_KEY) (Eq.refl Base58Type.EXT_PUBLIC_KEY)) h21
  · rw [hs.base58Prefixes_eq obj .EXT_PUBLIC_KEY]
    cases obj <;> rfl
  · rw [hs.base58Prefixes_eq obj .EXT_SECRET_KEY]
    cases obj <;> rfl
  · rw [hs.base58Prefixes_eq obj .EXT_PUBLIC_KEY, hs.base58Prefixes_eq obj .EXT_SECRET_KEY]
    cases obj <;> decide

/-- Instance of C11 (amended): the regtest object after static initialisation. -/
theorem leading_bytes_distinct_except_ext_pair_witness :
    ((sampleRegistry.deref .regTestParams).base58Prefixes .PUBKEY_ADDRESS).head?
        ≠ ((sampleRegistry.deref .regTestParams).base58Prefixes .EXT_SECRET_KEY).head?
      ∧ ((sampleRegistry.deref .regTestParams).base58Prefixes .EXT_PUBLIC_KEY).head? = some 0x04 :=
  have h := leading_bytes_distinct_except_ext_pair sampleExternals sampleRegistry
    reachable_sample .regTestParams
  ⟨h.1 .PUBKEY_ADDRESS .EXT_SECRET_KEY (by decide) (by decide) (by decide), h.2.1⟩

/-! ## Magic bytes and checkpoint times -/

/-- C12 as stated fails: after static initialisation the unit-test object, which
`Params(UNITTEST)` returns, has the message start bytes of the main object, which
`Params(MAIN)` returns: `CUnitTestParams()` does not assign `pchMessageStart`. -/
theorem magic_bytes_shared_by_main_and_unittest :
    Reachable sampleExternals sampleRegistry
      ∧ ParamsOf .MAIN = .ok .mainParams ∧ ParamsOf .UNITTEST = .ok .unitTestParams
      ∧ (sampleRegistry.deref .mainParams).pchMessageStart = [0x90, 0x0d, 0xf1, 0x0d]
      ∧ (sampleRegistry.deref .unitTestParams).pchMessageStart = [0x90, 0x0d, 0xf1, 0x0d]
      ∧ ¬ ∀ (n1 n2 : Network) (o1 o2 : ParamsObject),
          ParamsOf n1 = .ok o1 → ParamsOf n2 = .ok o2 → n1 ≠ n2 →
          (sampleRegistry.deref o1).pchMessageStart ≠ (sampleRegistry.deref o2).pchMessageStart :=
  ⟨reachable_sample, rfl, rfl, rfl, rfl,
    fun h => h .MAIN .UNITTEST .mainParams .unitTestParams rfl rfl (by decide) rfl⟩

/-- C12 (amended): in every reachable state the message start bytes of the objects of
two different network identifiers differ, except for MAIN and UNITTEST, whose objects
both have the bytes 0x90 0x0d 0xf1 0x0d. -/
theorem magic_bytes_distinct_except_unittest (x : Externals) (s : Registry)
    (hs : Reachable x s) :
    (∀ (n1 n2 : Network) (o1 o2 : ParamsObject),
        ParamsOf n1 = .ok o1 → ParamsOf n2 = .ok o2 → n1 ≠ n2 →
        ¬ (n1 = .MAIN ∧ n2 = .UNITTEST) → ¬ (n1 = .UNITTEST ∧ n2 = .MAIN) →
        (s.deref o1).pchMessageStart ≠ (s.deref o2).pchMessageStart)
      ∧ (s.deref .mainParams).pchMessageStart = [0x90, 0x0d, 0xf1, 0x0d]
      ∧ (s.deref .unitTestParams).pchMessageStart = [0x90, 0x0d, 0xf1, 0x0d]
      ∧ (s.deref .testNetParams).pchMessageStart = [0xC0, 0x1d, 0xf1, 0x0d]
      ∧ (s.deref .regTestParams).pchMessageStart = [0x0b, 0xad, 0xf1, 0x0d] := by
  refine ⟨?_, hs.pchMessageStart_eq .mainParams, hs.pchMessageStart_eq .unitTestParams,
    hs.pchMessageStart_eq .testNetParams, hs.pchMessageStart_eq .regTestParams⟩
  intro n1 n2 o1 o2 h1 h2 hn h12 h21
  rw [hs.pchMessageStart_eq o1, hs.pchMessageStart_eq o2]
  cases n1 <;> cases n2 <;> first
    | exact absurd rfl hn
    | exact absurd (And.intro (Eq.refl Network.MAIN) (Eq.refl Network.UNITTEST)) h12
    | exact absurd (And.intro (Eq.refl Network.UNITTEST) (Eq.refl Network.MAIN)) h21
    | (cases h1; cases h2; decide)
    | (cases h1 <;> cases h2)

/-- Instance of C12 (amended): the test and regtest objects after static
initialisation. -/
theorem magic_bytes_distinct_except_unittest_witness :
    (sampleRegistry.deref .testNetParams).pchMessageStart
        ≠ (sampleRegistry.deref .regTestParams).pchMessageStart
      ∧ (sampleRegistry.deref .unitTestParams).pchMessageStart = [0x90, 0x0d, 0xf1, 0x0d] :=
  have h := magic_bytes_distinct_except_unittest sampleExternals sampleRegistry reachable_sample
  ⟨h.1 .TESTNET .REGTEST .testNetParams .regTestParams rfl rfl (by decide) (by decide)
    (by decide), h.2.2.1⟩

/-- C13 as stated fails: after static initialisation the table that `Checkpoints()` of
the regtest object returns has last-checkpoint time 0, which is less than the time
1296688602 of the regtest genesis block. -/
theorem regtest_checkpoint_time_before_genesis :
    Reachable sampleExternals sampleRegistry
      ∧ (Checkpoints .regTestParams).nTimeLastCheckpoint = 0
      ∧ (sampleRegistry.deref .regTestParams).genesis.nTime = 1296688602
      ∧ ¬ ∀ obj : ParamsObject,
          ((sampleRegistry.deref obj).genesis.nTime : Int)
            ≤ (Checkpoints obj).nTimeLastCheckpoint :=
  ⟨reachable_sample, rfl, rfl, fun h => absurd (h .regTestParams) (by decide)⟩

/-- C13 (amended): in every reachable state the last-checkpoint time of the table that
`Checkpoints()` returns is at least the genesis block time for the main, test and
unit-test objects (1512025515, 1512025519 and 1512025515 against 1411666331); for the
regtest object the table has time 0 and the genesis block has time 1296688602. -/
theorem checkpoint_time_after_genesis_except_regtest (x : Externals) (s : Registry)
    (hs : Reachable x s) :
    (∀ obj : ParamsObject, obj ≠ .regTestParams →
        ((s.deref obj).genesis.nTime : Int) ≤ (Checkpoints obj).nTimeLastCheckpoint)
      ∧ (Checkpoints .regTestParams).nTimeLastCheckpoint = 0
      ∧ (s.deref .regTestParams).genesis.nTime = 1296688602
      ∧ (Checkpoints .regTestParams).nTimeLastCheckpoint
          < ((s.deref .regTestParams).genesis.nTime : Int) := by
  refine ⟨?_, rfl, hs.genesis_nTime_eq .regTestParams, ?_⟩
  · intro obj hobj
    rw [hs.genesis_nTime_eq obj]
    cases obj <;> first
      | exact absurd rfl hobj
      | decide
  · rw [hs.genesis_nTime_eq .regTestParams]
    decide

/-- Instance of C13 (amended): the test object after static initialisation. -/
theorem checkpoint_time_after_genesis_except_regtest_witness :
    ((sampleRegistry.deref .testNetParams).genesis.nTime : Int)
        ≤ (Checkpoints .testNetParams).nTimeLastCheckpoint
      ∧ (Checkpoints .regTestParams).nTimeLastCheckpoint
          < ((sampleRegistry.deref .regTestParams).genesis.nTime : Int) :=
  have h := checkpoint_time_after_genesis_except_regtest sampleExternals sampleRegistry
    reachable_sample
  ⟨h.1 .testNetParams (by decide), h.2.2.2⟩

/-! ## Derivation of the profiles -/

theorem staticInit_hashes {x : Externals} {s : Registry} (h : staticInit x = .ok s) :
    s.testNetParams.hashGenesisBlock
        = 0x439b64c567dc10054382e60c9ff2660d1cdfb8db90ff2d5309a83527cb704c59
      ∧ s.regTestParams.hashGenesisBlock
        = 0x07eb408b27b90773e53bc7c803eb02cf1f725375b67905f80c3c03c821395809 := by
  unfold staticInit at h
  rw [CMainParams_eq, CUnitTestParams_eq] at h
  cases ht : CTestNetParams x {} with
  | error e => rw [ht] at h; cases h
  | ok t =>
    cases hr : CRegTestParams x {} with
    | error e => rw [ht, hr] at h; cases h
    | ok r =>
      rw [ht, hr] at h
      obtain ⟨hh1, rfl⟩ := CTestNetParams_ok ht
      obtain ⟨t1, -, hh2, rfl⟩ := CRegTestParams_ok hr
      cases h
      exact ⟨hh1, hh2⟩

/-- In every reachable state the test and regtest objects have the genesis hashes that
their constructors assert. -/
theorem Reachable.hashes {x : Externals} {s : Registry} (h : Reachable x s) :
    s.testNetParams.hashGenesisBlock
        = 0x439b64c567dc10054382e60c9ff2660d1cdfb8db90ff2d5309a83527cb704c59
      ∧ s.regTestParams.hashGenesisBlock
        = 0x07eb408b27b90773e53bc7c803eb02cf1f725375b67905f80c3c03c821395809 := by
  induction h with
  | init h0 => exact staticInit_hashes h0
  | select n _ hsel ih =>
    obtain ⟨p, -, rfl⟩ := SelectParams_ok hsel
    exact ih
  | setter m _ ih => exact ih

/-- C14: the fields that `CTestNetParams()` does not assign have, in the test object,
the values of the main object (`nSubsidyHalvingInterval`, `nGenesisSubsidy`,
`fSkipProofOfWorkCheck`, and the genesis block's version, previous-block hash, merkle
root and transactions), and the fields that `CRegTestParams()` does not assign have, in
the regtest object, the values of the test object (`vAlertPubKey`, the five
`base58Prefixes`, `nGenesisSubsidy`, `fSkipProofOfWorkCheck`, and the same four parts of
the genesis block); this holds in every reachable state. -/
theorem unassigned_fields_equal_parent (x : Externals) (s : Registry) (hs : Reachable x s) :
    (s.testNetParams.nSubsidyHalvingInterval = s.mainParams.nSubsidyHalvingInterval
      ∧ s.testNetParams.nGenesisSubsidy = s.mainParams.nGenesisSubsidy
      ∧ s.testNetParams.fSkipProofOfWorkCheck = s.mainParams.fSkipProofOfWorkCheck
      ∧ s.testNetParams.genesis.nVersion = s.mainParams.genesis.nVersion
      ∧ s.testNetParams.genesis.hashPrevBlock = s.mainParams.genesis.hashPrevBlock
      ∧ s.testNetParams.genesis.hashMerkleRoot = s.mainParams.genesis.hashMerkleRoot
      ∧ s.testNetParams.genesis.vtx = s.mainParams.genesis.vtx)
    ∧ (s.regTestParams.vAlertPubKey = s.testNetParams.vAlertPubKey
      ∧ (∀ t : Base58Type, s.regTestParams.base58Prefixes t = s.testNetParams.base58Prefixes t)
      ∧ s.regTestParams.nGenesisSubsidy = s.testNetParams.nGenesisSubsidy
      ∧ s.regTestParams.fSkipProofOfWorkCheck = s.testNetParams.fSkipProofOfWorkCheck
      ∧ s.regTestParams.genesis.nVersion = s.testNetParams.genesis.nVersion
      ∧ s.regTestParams.genesis.hashPrevBlock = s.testNetParams.genesis.hashPrevBlock
      ∧ s.regTestParams.genesis.hashMerkleRoot = s.testNetParams.genesis.hashMerkleRoot
      ∧ s.regTestParams.genesis.vtx = s.testNetParams.genesis.vtx) := by
  obtain ⟨h1, h2, h3, -⟩ := hs.objects
  rw [h1, h2, h3]
  exact ⟨⟨rfl, rfl, rfl, rfl, rfl, rfl, rfl⟩, rfl, fun _ => rfl, rfl, rfl, rfl, rfl, rfl, rfl⟩

/-- Instance of C14: the objects after static initialisation under `sampleExternals`;
the inherited halving interval is 2100000 and the inherited transaction list has the one
genesis transaction. -/
theorem unassigned_fields_equal_parent_witness :
    sampleRegistry.testNetParams.nSubsidyHalvingInterval = 2100000
      ∧ sampleRegistry.testNetParams.nSubsidyHalvingInterval
          = sampleRegistry.mainParams.nSubsidyHalvingInterval
      ∧ sampleRegistry.regTestParams.genesis.vtx.length = 1
      ∧ sampleRegistry.regTestParams.genesis.vtx = sampleRegistry.testNetParams.genesis.vtx :=
  have h := unassigned_fields_equal_parent sampleExternals sampleRegistry reachable_sample
  ⟨rfl, h.1.1, rfl, h.2.2.2.2.2.2.2.2⟩

/-- C15 as stated fails: after static initialisation the regtest object has message
start bytes 0x0b 0xad 0xf1 0x0d and majority thresholds 750, 950, 1000, the test object
has 0xC0 0x1d 0xf1 0x0d and 51, 75, 100. -/
theorem regtest_magic_and_majorities_differ_from_test :
    Reachable sampleExternals sampleRegistry
      ∧ sampleRegistry.regTestParams.pchMessageStart = [0x0b, 0xad, 0xf1, 0x0d]
      ∧ sampleRegistry.testNetParams.pchMessageStart = [0xC0, 0x1d, 0xf1, 0x0d]
      ∧ sampleRegistry.regTestParams.nEnforceBlockUpgradeMajority = 750
      ∧ sampleRegistry.testNetParams.nEnforceBlockUpgradeMajority = 51
      ∧ ¬ (sampleRegistry.regTestParams.pchMessageStart = sampleRegistry.testNetParams.pchMessageStart
          ∧ sampleRegistry.regTestParams.nEnforceBlockUpgradeMajority
              = sampleRegistry.testNetParams.nEnforceBlockUpgradeMajority
          ∧ sampleRegistry.regTestParams.nRejectBlockOutdatedMajority
              = sampleRegistry.testNetParams.nRejectBlockOutdatedMajority
          ∧ sampleRegistry.regTestParams.nToCheckBlockUpgradeMajority
              = sampleRegistry.testNetParams.nToCheckBlockUpgradeMajority
          ∧ sampleRegistry.regTestParams.nTargetTimespan = sampleRegistry.testNetParams.nTargetTimespan
          ∧ sampleRegistry.regTestParams.nTargetSpacing = sampleRegistry.testNetParams.nTargetSpacing) :=
  ⟨reachable_sample, rfl, rfl, rfl, rfl, fun h => absurd h.1 (by decide)⟩

/-- C15 (amended): in every reachable state the regtest object differs from the test
object in its network identifier, message start bytes, default port, subsidy-halving
interval, three majority thresholds, miner-thread count, genesis time, nonce and hash,
and the flags `fRequireRPCPassword`, `fMiningRequiresPeers`, `fDefaultCheckMemPool`,
`fMineBlocksOnDemand` and `fTestnetToBeDeprecatedFieldRPC`; every other field, in
particular the timing constants, the proof-of-work limit, the genesis bits and the seed
lists, equals the test object's value. -/
theorem regtest_relative_to_test (x : Externals) (s : Registry) (hs : Reachable x s) :
    (s.regTestParams.strNetworkID = "regtest" ∧ s.testNetParams.strNetworkID = "test"
      ∧ s.regTestParams.pchMessageStart ≠ s.testNetParams.pchMessageStart
      ∧ s.regTestParams.nDefaultPort = 29488 ∧ s.testNetParams.nDefaultPort = 19488
      ∧ s.regTestParams.nSubsidyHalvingInterval = 150
      ∧ s.testNetParams.nSubsidyHalvingInterval = 2100000
      ∧ s.regTestParams.nEnforceBlockUpgradeMajority = 750
      ∧ s.testNetParams.nEnforceBlockUpgradeMajority = 51
      ∧ s.regTestParams.nRejectBlockOutdatedMajority = 950
      ∧ s.testNetParams.nRejectBlockOutdatedMajority = 75
      ∧ s.regTestParams.nToCheckBlockUpgradeMajority = 1000
      ∧ s.testNetParams.nToCheckBlockUpgradeMajority = 100
      ∧ s.regTestParams.nMinerThreads = 1 ∧ s.testNetParams.nMinerThreads = 0
      ∧ s.regTestParams.genesis.nTime = 1296688602 ∧ s.testNetParams.genesis.nTime = 1411666331
      ∧ s.regTestParams.genesis.nNonce = 2 ∧ s.testNetParams.genesis.nNonce = 6
      ∧ s.regTestParams.hashGenesisBlock ≠ s.testNetParams.hashGenesisBlock
      ∧ s.regTestParams.fRequireRPCPassword = false ∧ s.testNetParams.fRequireRPCPassword = true
      ∧ s.regTestParams.fMiningRequiresPeers = false ∧ s.testNetParams.fMiningRequiresPeers = true
      ∧ s.regTestParams.fDefaultCheckMemPool = true ∧ s.testNetParams.fDefaultCheckMemPool = false
      ∧ s.regTestParams.fMineBlocksOnDemand = true ∧ s.testNetParams.fMineBlocksOnDemand = false
      ∧ s.regTestParams.fTestnetToBeDeprecatedFieldRPC = false
      ∧ s.testNetParams.fTestnetToBeDeprecatedFieldRPC = true)
    ∧ (s.regTestParams.nTargetTimespan = s.testNetParams.nTargetTimespan
      ∧ s.regTestParams.nTargetSpacing = s.testNetParams.nTargetSpacing
      ∧ s.regTestParams.bnProofOfWorkLimit = s.testNetParams.bnProofOfWorkLimit
      ∧ s.regTestParams.vAlertPubKey = s.testNetParams.vAlertPubKey
      ∧ s.regTestParams.nGenesisSubsidy = s.testNetParams.nGenesisSubsidy
      ∧ s.regTestParams.genesis.nBits = s.testNetParams.genesis.nBits
      ∧ s.regTestParams.genesis.nVersion = s.testNetParams.genesis.nVersion
      ∧ s.regTestParams.genesis.hashPrevBlock = s.testNetParams.genesis.hashPrevBlock
      ∧ s.regTestParams.genesis.hashMerkleRoot = s.testNetParams.genesis.hashMerkleRoot
      ∧ s.regTestParams.genesis.vtx = s.testNetParams.genesis.vtx
      ∧ s.regTestParams.vSeeds = s.testNetParams.vSeeds
      ∧ s.regTestParams.vFixedSeeds = s.testNetParams.vFixedSeeds
      ∧ (∀ t : Base58Type, s.regTestParams.base58Prefixes t = s.testNetParams.base58Prefixes t)
      ∧ s.regTestParams.fAllowMinDifficultyBlocks = s.testNetParams.fAllowMinDifficultyBlocks
      ∧ s.regTestParams.fRequireStandard = s.testNetParams.fRequireStandard
      ∧ s.regTestParams.fSkipProofOfWorkCheck = s.testNetParams.fSkipProofOfWorkCheck) := by
  obtain ⟨hh2, hh3⟩ := hs.hashes
  have hhash : s.regTestParams.hashGenesisBlock ≠ s.testNetParams.hashGenesisBlock := by
    rw [hh2, hh3]
    decide
  have hmagic : s.regTestParams.pchMessageStart ≠ s.testNetParams.pchMessageStart := by
    have a := hs.pchMessageStart_eq .regTestParams
    have b := hs.pchMessageStart_eq .testNetParams
    change s.regTestParams.pchMessageStart = [0x0b, 0xad, 0xf1, 0x0d] at a
    change s.testNetParams.pchMessageStart = [0xC0, 0x1d, 0xf1, 0x0d] at b
    rw [a, b]
    decide
  obtain ⟨-, h2, h3, -⟩ := hs.objects
  rw [h2, h3] at hhash hmagic ⊢
  refine ⟨⟨rfl, rfl, hmagic, rfl, rfl, rfl, rfl, rfl, rfl, rfl, rfl, rfl, rfl, rfl, rfl,
    rfl, rfl, rfl, rfl, hhash, rfl, rfl, rfl, rfl, rfl, rfl, rfl, rfl, rfl, rfl⟩,
    rfl, rfl, rfl, rfl, rfl, rfl, rfl, rfl, rfl, rfl, rfl, rfl, fun _ => rfl, rfl, rfl, rfl⟩

/-- Instance of C15 (amended): the objects after static initialisation under
`sampleExternals`. -/
theorem regtest_relative_to_test_witness :
    sampleRegistry.regTestParams.pchMessageStart ≠ sampleRegistry.testNetParams.pchMessageStart
      ∧ sampleRegistry.regTestParams.nTargetTimespan = sampleRegistry.testNetParams.nTargetTimespan
      ∧ sampleRegistry.regTestParams.nTargetSpacing = sampleRegistry.testNetParams.nTargetSpacing :=
  have h := regtest_relative_to_test sampleExternals sampleRegistry reachable_sample
  ⟨h.1.2.2.1, h.2.1, h.2.2.1⟩

/-- C16: after static initialisation the unit-test object has network identifier
"unittest" and default port 18445 where the main object has "main" and 9488, it differs
from the main object in the flags `fRequireRPCPassword`, `fDefaultCheckMemPool`,
`fAllowMinDifficultyBlocks` and `fMineBlocksOnDemand`, and every other field equals the
main object's: message start bytes, alert key, proof-of-work limit, subsidy-halving
interval, the three majority thresholds, the timing constants, the genesis block and its
hash, the address prefixes, the seed lists, `fRequireStandard`, `fSkipProofOfWorkCheck`
and the remaining fields. -/
theorem unittest_relative_to_main (x : Externals) (s : Registry)
    (h0 : staticInit x = .ok s) :
    (s.unitTestParams.strNetworkID = "unittest" ∧ s.mainParams.strNetworkID = "main"
      ∧ s.unitTestParams.nDefaultPort = 18445 ∧ s.mainParams.nDefaultPort = 9488
      ∧ s.unitTestParams.fRequireRPCPassword = false ∧ s.mainParams.fRequireRPCPassword = true
      ∧ s.unitTestParams.fDefaultCheckMemPool = true ∧ s.mainParams.fDefaultCheckMemPool = false
      ∧ s.unitTestParams.fAllowMinDifficultyBlocks = false
      ∧ s.mainParams.fAllowMinDifficultyBlocks = true
      ∧ s.unitTestParams.fMineBlocksOnDemand = true ∧ s.mainParams.fMineBlocksOnDemand = false)
    ∧ (s.unitTestParams.pchMessageStart = s.mainParams.pchMessageStart
      ∧ s.unitTestParams.vAlertPubKey = s.mainParams.vAlertPubKey
      ∧ s.unitTestParams.bnProofOfWorkLimit = s.mainParams.bnProofOfWorkLimit
      ∧ s.unitTestParams.nSubsidyHalvingInterval = s.mainParams.nSubsidyHalvingInterval
      ∧ s.unitTestParams.nEnforceBlockUpgradeMajority = s.mainParams.nEnforceBlockUpgradeMajority
      ∧ s.unitTestParams.nRejectBlockOutdatedMajority = s.mainParams.nRejectBlockOutdatedMajority
      ∧ s.unitTestParams.nToCheckBlockUpgradeMajority = s.mainParams.nToCheckBlockUpgradeMajority
      ∧ s.unitTestParams.nTargetTimespan = s.mainParams.nTargetTimespan
      ∧ s.unitTestParams.nTargetSpacing = s.mainParams.nTargetSpacing
      ∧ s.unitTestParams.genesis = s.mainParams.genesis
      ∧ s.unitTestParams.hashGenesisBlock = s.mainParams.hashGenesisBlock
      ∧ (∀ t : Base58Type, s.unitTestParams.base58Prefixes t = s.mainParams.base58Prefixes t)
      ∧ s.unitTestParams.vSeeds = s.mainParams.vSeeds
      ∧ s.unitTestParams.vFixedSeeds = s.mainParams.vFixedSeeds
      ∧ s.unitTestParams.fRequireStandard = s.mainParams.fRequireStandard
      ∧ s.unitTestParams.fSkipProofOfWorkCheck = s.mainParams.fSkipProofOfWorkCheck)
    ∧ (s.unitTestParams.nMinerThreads = s.mainParams.nMinerThreads
      ∧ s.unitTestParams.nGenesisSubsidy = s.mainParams.nGenesisSubsidy
      ∧ s.unitTestParams.fMiningRequiresPeers = s.mainParams.fMiningRequiresPeers
      ∧ s.unitTestParams.fTestnetToBeDeprecatedFieldRPC
          = s.mainParams.fTestnetToBeDeprecatedFieldRPC) := by
  obtain ⟨h1, -, -, h4, -⟩ := staticInit_ok h0
  rw [h1, h4]
  exact ⟨⟨rfl, rfl, rfl, rfl, rfl, rfl, rfl, rfl, rfl, rfl, rfl, rfl⟩,
    ⟨rfl, rfl, rfl, rfl, rfl, rfl, rfl, rfl, rfl, rfl, rfl, fun _ => rfl, rfl, rfl, rfl, rfl⟩,
    rfl, rfl, rfl, rfl⟩

/-- Instance of C16: the objects after static initialisation under `sampleExternals`. -/
theorem unittest_relative_to_main_witness :
    staticInit sampleExternals = .ok sampleRegistry
      ∧ sampleRegistry.unitTestParams.nDefaultPort = 18445
      ∧ sampleRegistry.unitTestParams.pchMessageStart = sampleRegistry.mainParams.pchMessageStart
      ∧ sampleRegistry.unitTestParams.genesis = sampleRegistry.mainParams.genesis :=
  have h := unittest_relative_to_main sampleExternals sampleRegistry staticInit_sample
  ⟨staticInit_sample, h.1.2.2.1, h.2.1.1, h.2.1.2.2.2.2.2.2.2.2.2.1⟩

/-! ## Setters of the unit-test object -/

/-- C17: a setter is one of the seven setters for the subsidy-halving interval, the
enforce, reject and to-check majorities, the default mempool check, the minimum
difficulty flag and the proof-of-work skip flag; a call of it on the unit-test object
leaves the main, test and regtest objects and `pCurrentParams` as they are, gives the
setter's field the argument, and leaves every other field of the unit-test object as it
is. -/
theorem setter_frame (s : Registry) (m : Setter) :
    ((∃ v, m = .setSubsidyHalvingInterval v) ∨ (∃ v, m = .setEnforceBlockUpgradeMajority v)
        ∨ (∃ v, m = .setRejectBlockOutdatedMajority v)
        ∨ (∃ v, m = .setToCheckBlockUpgradeMajority v)
        ∨ (∃ v, m = .setDefaultCheckMemPool v) ∨ (∃ v, m = .setAllowMinDifficultyBlocks v)
        ∨ (∃ v, m = .setSkipProofOfWorkCheck v))
    ∧ ((s.applySetter m).mainParams = s.mainParams
      ∧ (s.applySetter m).testNetParams = s.testNetParams
      ∧ (s.applySetter m).regTestParams = s.regTestParams
      ∧ (s.applySetter m).pCurrentParams = s.pCurrentParams)
    ∧ ((s.applySetter m).unitTestParams.nSubsidyHalvingInterval
          = (match m with
            | .setSubsidyHalvingInterval v => v
            | _ => s.unitTestParams.nSubsidyHalvingInterval)
      ∧ (s.applySetter m).unitTestParams.nEnforceBlockUpgradeMajority
          = (match m with
            | .setEnforceBlockUpgradeMajority v => v
            | _ => s.unitTestParams.nEnforceBlockUpgradeMajority)
      ∧ (s.applySetter m).unitTestParams.nRejectBlockOutdatedMajority
          = (match m with
            | .setRejectBlockOutdatedMajority v => v
            | _ => s.unitTestParams.nRejectBlockOutdatedMajority)
      ∧ (s.applySetter m).unitTestParams.nToCheckBlockUpgradeMajority
          = (match m with
            | .setToCheckBlockUpgradeMajority v => v
            | _ => s.unitTestParams.nToCheckBlockUpgradeMajority)
      ∧ (s.applySetter m).unitTestParams.fDefaultCheckMemPool
          = (match m with
            | .setDefaultCheckMemPool v => v
            | _ => s.unitTestParams.fDefaultCheckMemPool)
      ∧ (s.applySetter m).unitTestParams.fAllowMinDifficultyBlocks
          = (match m with
            | .setAllowMinDifficultyBlocks v => v
            | _ => s.unitTestParams.fAllowMinDifficultyBlocks)
      ∧ (s.applySetter m).unitTestParams.fSkipProofOfWorkCheck
          = (match m with
            | .setSkipProofOfWorkCheck v => v
            | _ => s.unitTestParams.fSkipProofOfWorkCheck))
    ∧ ((s.applySetter m).unitTestParams.strNetworkID = s.unitTestParams.strNetworkID
      ∧ (s.applySetter m).unitTestParams.pchMessageStart = s.unitTestParams.pchMessageStart
      ∧ (s.applySetter m).unitTestParams.vAlertPubKey = s.unitTestParams.vAlertPubKey
      ∧ (s.applySetter m).unitTestParams.nDefaultPort = s.unitTestParams.nDefaultPort
      ∧ (s.applySetter m).unitTestParams.bnProofOfWorkLimit = s.unitTestParams.bnProofOfWorkLimit
      ∧ (s.applySetter m).unitTestParams.nMinerThreads = s.unitTestParams.nMinerThreads
      ∧ (s.applySetter m).unitTestParams.nTargetTimespan = s.unitTestParams.nTargetTimespan
      ∧ (s.applySetter m).unitTestParams.nTargetSpacing = s.unitTestParams.nTargetSpacing
      ∧ (s.applySetter m).unitTestParams.nGenesisSubsidy = s.unitTestParams.nGenesisSubsidy
      ∧ (s.applySetter m).unitTestParams.genesis = s.unitTestParams.genesis
      ∧ (s.applySetter m).unitTestParams.hashGenesisBlock = s.unitTestParams.hashGenesisBlock
      ∧ (s.applySetter m).unitTestParams.vSeeds = s.unitTestParams.vSeeds
      ∧ (s.applySetter m).unitTestParams.vFixedSeeds = s.unitTestParams.vFixedSeeds
      ∧ (s.applySetter m).unitTestParams.base58Prefixes = s.unitTestParams.base58Prefixes
      ∧ (s.applySetter m).unitTestParams.fRequireRPCPassword
          = s.unitTestParams.fRequireRPCPassword
      ∧ (s.applySetter m).unitTestParams.fMiningRequiresPeers
          = s.unitTestParams.fMiningRequiresPeers
      ∧ (s.applySetter m).unitTestParams.fRequireStandard = s.unitTestParams.fRequireStandard
      ∧ (s.applySetter m).unitTestParams.fMineBlocksOnDemand
          = s.unitTestParams.fMineBlocksOnDemand
      ∧ (s.applySetter m).unitTestParams.fTestnetToBeDeprecatedFieldRPC
          = s.unitTestParams.fTestnetToBeDeprecatedFieldRPC) := by
  refine ⟨?_, ⟨rfl, rfl, rfl, rfl⟩, ?_, ?_⟩
  · cases m with
    | setSubsidyHalvingInterval v => exact .inl ⟨v, rfl⟩
    | setEnforceBlockUpgradeMajority v => exact .inr (.inl ⟨v, rfl⟩)
    | setRejectBlockOutdatedMajority v => exact .inr (.inr (.inl ⟨v, rfl⟩))
    | setToCheckBlockUpgradeMajority v => exact .inr (.inr (.inr (.inl ⟨v, rfl⟩)))
    | setDefaultCheckMemPool v => exact .inr (.inr (.inr (.inr (.inl ⟨v, rfl⟩))))
    | setAllowMinDifficultyBlocks v => exact .inr (.inr (.inr (.inr (.inr (.inl ⟨v, rfl⟩)))))
    | setSkipProofOfWorkCheck v => exact .inr (.inr (.inr (.inr (.inr (.inr ⟨v, rfl⟩)))))
  · cases m <;> exact ⟨rfl, rfl, rfl, rfl, rfl, rfl, rfl⟩
  · cases m <;>
      exact ⟨rfl, rfl, rfl, rfl, rfl, rfl, rfl, rfl, rfl, rfl, rfl, rfl, rfl, rfl, rfl, rfl,
        rfl, rfl, rfl⟩

/-! ## Selection from the command line -/

/-- C18: when `NetworkIdFromCommandLine()` yields MAX_NETWORK_TYPES,
`SelectParamsFromCommandLine()` returns false and leaves the registry as it is; for each
of the four other identifiers (given that the external `SelectBaseParams` returns) it
returns true and afterwards `Params()` returns the object of that identifier; and
whenever it returns, the result is false exactly when the identifier was
MAX_NETWORK_TYPES. -/
theorem SelectParamsFromCommandLine_result (x : Externals) (s : Registry) :
    SelectParamsFromCommandLine x .MAX_NETWORK_TYPES s = .ok (false, s)
      ∧ (∀ n : Network, n ≠ .MAX_NETWORK_TYPES → x.SelectBaseParams n = .ok () →
          ∃ s1 obj, SelectParamsFromCommandLine x n s = .ok (true, s1)
            ∧ ParamsOf n = .ok obj ∧ Params s1 = .ok obj
            ∧ s1 = { s with pCurrentParams := some obj })
      ∧ (∀ (n : Network) (r : Bool × Registry), SelectParamsFromCommandLine x n s = .ok r →
          ((r.1 = false ∧ r.2.pCurrentParams = s.pCurrentParams) ↔ n = .MAX_NETWORK_TYPES)) := by
  refine ⟨rfl, ?_, ?_⟩
  · intro n hn hb
    cases n with
    | MAX_NETWORK_TYPES => exact absurd rfl hn
    | MAIN =>
      refine ⟨{ s with pCurrentParams := some .mainParams }, .mainParams, ?_, rfl, rfl, rfl⟩
      simp [SelectParamsFromCommandLine, SelectParams, hb, ParamsOf, bind, Except.bind, pure,
        Except.pure]
    | TESTNET =>
      refine ⟨{ s with pCurrentParams := some .testNetParams }, .testNetParams, ?_, rfl, rfl,
        rfl⟩
      simp [SelectParamsFromCommandLine, SelectParams, hb, ParamsOf, bind, Except.bind, pure,
        Except.pure]
    | REGTEST =>
      refine ⟨{ s with pCurrentParams := some .regTestParams }, .regTestParams, ?_, rfl, rfl,
        rfl⟩
      simp [SelectParamsFromCommandLine, SelectParams, hb, ParamsOf, bind, Except.bind, pure,
        Except.pure]
    | UNITTEST =>
      refine ⟨{ s with pCurrentParams := some .unitTestParams }, .unitTestParams, ?_, rfl, rfl,
        rfl⟩
      simp [SelectParamsFromCommandLine, SelectParams, hb, ParamsOf, bind, Except.bind, pure,
        Except.pure]
  · intro n r hr
    by_cases hn : n = .MAX_NETWORK_TYPES
    · subst hn
      cases hr
      exact ⟨fun _ => rfl, fun _ => ⟨rfl, rfl⟩⟩
    · have hr1 : r.1 = true := by
        unfold SelectParamsFromCommandLine at hr
        rw [if_neg hn] at hr
        cases hsel : SelectParams x n s with
        | error e =>
          rw [hsel] at hr
          cases hr
        | ok s1 =>
          rw [hsel] at hr
          cases hr
          rfl
      exact ⟨fun h => by rw [hr1] at h; exact absurd h.1 (by decide), fun h => absurd h hn⟩

/-- Instance of C18: the command line selects TESTNET in the state after static
initialisation. -/
theorem SelectParamsFromCommandLine_result_witness :
    SelectParamsFromCommandLine sampleExternals .MAX_NETWORK_TYPES sampleRegistry
        = .ok (false, sampleRegistry)
      ∧ ∃ s1 obj, SelectParamsFromCommandLine sampleExternals .TESTNET sampleRegistry
            = .ok (true, s1)
          ∧ ParamsOf .TESTNET = .ok obj ∧ Params s1 = .ok obj
          ∧ s1 = { sampleRegistry with pCurrentParams := some obj } :=
  have h := SelectParamsFromCommandLine_result sampleExternals sampleRegistry
  ⟨h.1, h.2.1 .TESTNET (by decide) rfl⟩

/-! ## Majority thresholds and retargeting -/

theorem nTargetTimespan_run (m : Setter) (p : CChainParams) :
    (m.run p).nTargetTimespan = p.nTargetTimespan := by
  cases m <;> rfl

theorem nTargetSpacing_run (m : Setter) (p : CChainParams) :
    (m.run p).nTargetSpacing = p.nTargetSpacing := by
  cases m <;> rfl

/-- C19: after static initialisation, before any setter call, each of the four objects
has `0 < nEnforceBlockUpgradeMajority ≤ nRejectBlockOutdatedMajority ≤
nToCheckBlockUpgradeMajority`; the values are 51, 75, 100 in the test object and 750,
950, 1000 in the main, regtest and unit-test objects. -/
theorem majority_thresholds_ordered (x : Externals) (s : Registry)
    (h0 : staticInit x = .ok s) (obj : ParamsObject) :
    0 < (s.deref obj).nEnforceBlockUpgradeMajority
      ∧ (s.deref obj).nEnforceBlockUpgradeMajority ≤ (s.deref obj).nRejectBlockOutdatedMajority
      ∧ (s.deref obj).nRejectBlockOutdatedMajority ≤ (s.deref obj).nToCheckBlockUpgradeMajority
      ∧ ((s.deref obj).nEnforceBlockUpgradeMajority, (s.deref obj).nRejectBlockOutdatedMajority,
          (s.deref obj).nToCheckBlockUpgradeMajority) =
        match obj with
        | .testNetParams => (51, 75, 100)
        | _ => (750, 950, 1000) := by
  obtain ⟨h1, h2, h3, h4, -⟩ := staticInit_ok h0
  cases obj
  · show 0 < s.mainParams.nEnforceBlockUpgradeMajority
      ∧ s.mainParams.nEnforceBlockUpgradeMajority ≤ s.mainParams.nRejectBlockOutdatedMajority
      ∧ s.mainParams.nRejectBlockOutdatedMajority ≤ s.mainParams.nToCheckBlockUpgradeMajority
      ∧ (s.mainParams.nEnforceBlockUpgradeMajority, s.mainParams.nRejectBlockOutdatedMajority,
          s.mainParams.nToCheckBlockUpgradeMajority) = (750, 950, 1000)
    rw [h1]
    show (0 : Int) < 750 ∧ (750 : Int) ≤ 950 ∧ (950 : Int) ≤ 1000 ∧ _
    exact ⟨by decide, by decide, by decide, rfl⟩
  · show 0 < s.testNetParams.nEnforceBlockUpgradeMajority
      ∧ s.testNetParams.nEnforceBlockUpgradeMajority ≤ s.testNetParams.nRejectBlockOutdatedMajority
      ∧ s.testNetParams.nRejectBlockOutdatedMajority ≤ s.testNetParams.nToCheckBlockUpgradeMajority
      ∧ (s.testNetParams.nEnforceBlockUpgradeMajority, s.testNetParams.nRejectBlockOutdatedMajority,
          s.testNetParams.nToCheckBlockUpgradeMajority) = (51, 75, 100)
    rw [h2]
    show (0 : Int) < 51 ∧ (51 : Int) ≤ 75 ∧ (75 : Int) ≤ 100 ∧ _
    exact ⟨by decide, by decide, by decide, rfl⟩
  · show 0 < s.regTestParams.nEnforceBlockUpgradeMajority
      ∧ s.regTestParams.nEnforceBlockUpgradeMajority ≤ s.regTestParams.nRejectBlockOutdatedMajority
      ∧ s.regTestParams.nRejectBlockOutdatedMajority ≤ s.regTestParams.nToCheckBlockUpgradeMajority
      ∧ (s.regTestParams.nEnforceBlockUpgradeMajority, s.regTestParams.nRejectBlockOutdatedMajority,
          s.regTestParams.nToCheckBlockUpgradeMajority) = (750, 950, 1000)
    rw [h3]
    show (0 : Int) < 750 ∧ (750 : Int) ≤ 950 ∧ (950 : Int) ≤ 1000 ∧ _
    exact ⟨by decide, by decide, by decide, rfl⟩
  · show 0 < s.unitTestParams.nEnforceBlockUpgradeMajority
      ∧ s.unitTestParams.nEnforceBlockUpgradeMajority ≤ s.unitTestParams.nRejectBlockOutdatedMajority
      ∧ s.unitTestParams.nRejectBlockOutdatedMajority ≤ s.unitTestParams.nToCheckBlockUpgradeMajority
      ∧ (s.unitTestParams.nEnforceBlockUpgradeMajority, s.unitTestParams.nRejectBlockOutdatedMajority,
          s.unitTestParams.nToCheckBlockUpgradeMajority) = (750, 950, 1000)
    rw [h4]
    show (0 : Int) < 750 ∧ (750 : Int) ≤ 950 ∧ (950 : Int) ≤ 1000 ∧ _
    exact ⟨by decide, by decide, by decide, rfl⟩

/-- Instance of C19: the test object after static initialisation under
`sampleExternals`. -/
theorem majority_thresholds_ordered_witness :
    staticInit sampleExternals = .ok sampleRegistry
      ∧ 0 < (sampleRegistry.deref .testNetParams).nEnforceBlockUpgradeMajority
      ∧ (sampleRegistry.deref .testNetParams).nEnforceBlockUpgradeMajority
          ≤ (sampleRegistry.deref .testNetParams).nRejectBlockOutdatedMajority
      ∧ (sampleRegistry.deref .testNetParams).nRejectBlockOutdatedMajority
          ≤ (sampleRegistry.deref .testNetParams).nToCheckBlockUpgradeMajority :=
  have h := majority_thresholds_ordered sampleExternals sampleRegistry staticInit_sample
    .testNetParams
  ⟨staticInit_sample, h.1, h.2.1, h.2.2.1⟩

/-- C20: in every reachable state each of the four objects has a positive
`nTargetSpacing` and a positive `nTargetTimespan` that is a multiple of it, and the
quotient `nTargetTimespan / nTargetSpacing` (truncating division of C++) is 60 for the
main and unit-test objects and 2016 for the test and regtest objects. -/
theorem retarget_interval_whole (x : Externals) (s : Registry) (hs : Reachable x s)
    (obj : ParamsObject) :
    0 < (s.deref obj).nTargetSpacing ∧ 0 < (s.deref obj).nTargetTimespan
      ∧ Int.tmod (s.deref obj).nTargetTimespan (s.deref obj).nTargetSpacing = 0
      ∧ (s.deref obj).nTargetSpacing ∣ (s.deref obj).nTargetTimespan
      ∧ Int.tdiv (s.deref obj).nTargetTimespan (s.deref obj).nTargetSpacing =
        (match obj with
          | .mainParams | .unitTestParams => 60
          | .testNetParams | .regTestParams => 2016)
      ∧ (s.deref obj).nTargetTimespan =
        (match obj with
          | .mainParams | .unitTestParams => 60
          | .testNetParams | .regTestParams => 2016) * (s.deref obj).nTargetSpacing := by
  obtain ⟨h1, h2, h3, ms, h4⟩ := hs.objects
  have key : (s.deref obj).nTargetTimespan = (match obj with
        | .mainParams | .unitTestParams => 3600
        | .testNetParams | .regTestParams => 1209600)
      ∧ (s.deref obj).nTargetSpacing = (match obj with
        | .mainParams | .unitTestParams => 60
        | .testNetParams | .regTestParams => 600) := by
    cases obj
    · show s.mainParams.nTargetTimespan = 3600 ∧ s.mainParams.nTargetSpacing = 60
      rw [h1]
      exact ⟨rfl, rfl⟩
    · show s.testNetParams.nTargetTimespan = 1209600 ∧ s.testNetParams.nTargetSpacing = 600
      rw [h2]
      exact ⟨rfl, rfl⟩
    · show s.regTestParams.nTargetTimespan = 1209600 ∧ s.regTestParams.nTargetSpacing = 600
      rw [h3]
      exact ⟨rfl, rfl⟩
    · show s.unitTestParams.nTargetTimespan = 3600 ∧ s.unitTestParams.nTargetSpacing = 60
      rw [h4, runSetters_preserves CChainParams.nTargetTimespan nTargetTimespan_run,
        runSetters_preserves CChainParams.nTargetSpacing nTargetSpacing_run]
      exact ⟨rfl, rfl⟩
  rw [key.1, key.2]
  cases obj <;> exact ⟨by decide, by decide, by decide, by decide, by decide, by decide⟩

/-- Instance of C20: the regtest object after static initialisation under
`sampleExternals`. -/
theorem retarget_interval_whole_witness :
    0 < (sampleRegistry.deref .regTestParams).nTargetSpacing
      ∧ Int.tdiv (sampleRegistry.deref .regTestParams).nTargetTimespan
          (sampleRegistry.deref .regTestParams).nTargetSpacing = 2016 :=
  have h := retarget_interval_whole sampleExternals sampleRegistry reachable_sample
    .regTestParams
  ⟨h.1, h.2.2.2.2.1⟩

end ChainParams
